import Mathlib

/-!
# Background-check workflow: shallow embedding and verified properties

Embeds `workflows/background_check.go` (the root workflow `BackgroundCheck`, with
`updateStatus` and `waitForAccept`) and `activities/federal_criminal_search.go`
(the activity `FederalCriminalSearch`).

The workflow host (Temporal SDK) is not part of the repository. Every call into it is
modelled by a field of `Host` that gives the outcome of that call; the workflow is a
pure function of the host and of its input, and it produces a `Run`: the trace of
host interactions (each stamped with the workflow state visible to the query handler
at that moment), the final state and the return value.
-/

namespace BackgroundChecks

/-- Go `error` values are identified with their message (`err.Error()`). -/
abbrev GoError := String

/-! ## Data model (package `types`, as used by the sources) -/

/-- The four status constants named in `background_check.go`
(`types.BackgroundCheckStatusPendingAccept` and so on). -/
inductive BackgroundCheckStatus
  | PendingAccept
  | Running
  | Declined
  | Completed
  deriving DecidableEq, Repr

/-- Candidate details: the workflow reads `FullName`, `Address` and `SSN`. -/
structure CandidateDetails where
  FullName : String
  Address : String
  SSN : String
  deriving DecidableEq, Repr

/-- The value returned by the consent child workflow: the workflow reads `Accepted`
and `CandidateDetails`. -/
structure AcceptSubmission where
  Accepted : Bool
  CandidateDetails : CandidateDetails
  deriving DecidableEq, Repr

/-- Workflow input: the workflow reads `Email` and `Package`. -/
structure BackgroundCheckWorkflowInput where
  Email : String
  Package : String
  deriving DecidableEq, Repr

/-- Input of the `ValidateSSN` child workflow (built at lines 72-76). -/
structure ValidateSSNWorkflowInput where
  FullName : String
  Address : String
  SSN : String
  deriving DecidableEq, Repr

/-- Input of the `FederalCriminalSearch` child workflow (built at line 96). -/
structure FederalCriminalSearchWorkflowInput where
  FullName : String
  Address : String
  deriving DecidableEq, Repr

/-- Input of the `StateCriminalSearch` child workflow (built at line 108). -/
structure StateCriminalSearchWorkflowInput where
  FullName : String
  Address : String
  deriving DecidableEq, Repr

/-- Input of the `MotorVehicleIncidentSearch` child workflow (built at line 120). -/
structure MotorVehicleIncidentSearchWorkflowInput where
  FullName : String
  Address : String
  deriving DecidableEq, Repr

/-- Result of the `ValidateSSN` child workflow. The workflow reads only `Valid`; the
remaining fields of the Go struct are declared in the absent package `types` and are
kept as a payload of parameter type `V`. -/
structure ValidateSSNWorkflowResult (V : Type) where
  Valid : Bool
  Rest : V
  deriving DecidableEq, Repr

/-- Workflow state `types.BackgroundCheckState`, the value returned by the query
handler. `Email`, `Tier`, `CandidateDetails`, `Validate`, `FederalCriminalSearch`,
`StateCriminalSearch` and `MotorVehicleIncidentSearch` are the fields the workflow
uses. The result types of the three investigative checks are declared in the absent
package `types` and are the type parameters `F`, `S`, `M`; their Go zero value is
`default`.

Modelled from the spec: the declaration of the struct is not under `src/`; the spec
(section 3) lists a status enum among its fields, which is the field `Status` here.
It is `some s` when the field holds one of the four constants above and `none` for any
other value of the Go type. -/
structure BackgroundCheckState (V F S M : Type) where
  Email : String
  Tier : String
  CandidateDetails : CandidateDetails
  Validate : ValidateSSNWorkflowResult V
  FederalCriminalSearch : F
  StateCriminalSearch : S
  MotorVehicleIncidentSearch : M
  Status : Option BackgroundCheckStatus
  deriving DecidableEq, Repr

/-! ## Host interface and traces -/

/-- A child workflow started with `workflow.ExecuteChildWorkflow`, with its input. -/
inductive Child
  | Accept
  | ValidateSSN (i : ValidateSSNWorkflowInput)
  | FederalCriminalSearch (i : FederalCriminalSearchWorkflowInput)
  | StateCriminalSearch (i : StateCriminalSearchWorkflowInput)
  | MotorVehicleIncidentSearch (i : MotorVehicleIncidentSearchWorkflowInput)
  deriving DecidableEq, Repr

/-- The three futures registered on the selector (lines 98, 110, 122). -/
inductive Check
  | federalCriminalSearch
  | stateCriminalSearch
  | motorVehicleIncidentSearch
  deriving DecidableEq, Repr

/-- Interactions of the workflow with its host, in program order:
* `queryHandlerSet`: `workflow.SetQueryHandler` succeeded;
* `published s`: `workflow.UpsertSearchAttributes` succeeded for the status `s`;
* `started c`: `workflow.ExecuteChildWorkflow` was called for `c`;
* `suspended`: the workflow blocks in `Future.Get` or `Selector.Select`;
* `consumed k`: the selector callback of `k` ran and called `Future.Get`;
* `logged msg`: `logger.Error` was called with `msg`. -/
inductive Event
  | queryHandlerSet
  | published (s : BackgroundCheckStatus)
  | started (c : Child)
  | suspended
  | consumed (k : Check)
  | logged (msg : String)
  deriving DecidableEq, Repr

/-- Outcomes of the host calls made by `BackgroundCheck`. `none` is a nil error.
`ready i` decides which of the futures still pending on the selector is delivered by
the `i`-th call of `Select` (its index among the pending ones, modulo their number):
every completion order of the three checks is some `ready`. -/
structure Host (V F S M : Type) where
  SetQueryHandler : Option GoError
  UpsertSearchAttributes : BackgroundCheckStatus → Option GoError
  Accept : Except GoError AcceptSubmission
  ValidateSSN : ValidateSSNWorkflowInput → Except GoError (ValidateSSNWorkflowResult V)
  FederalCriminalSearch : FederalCriminalSearchWorkflowInput → Except GoError F
  StateCriminalSearch : StateCriminalSearchWorkflowInput → Except GoError S
  MotorVehicleIncidentSearch : MotorVehicleIncidentSearchWorkflowInput → Except GoError M
  ready : Nat → Nat

/-- The running workflow: the local variable `status` of `BackgroundCheck` and the
trace so far. Each trace entry carries the value of `status` at that moment, which is
what the query handler (line 43) returns there. -/
structure Machine (V F S M : Type) where
  status : BackgroundCheckState V F S M
  trace : List (Event × BackgroundCheckState V F S M)

/-- How a run ends: the Go function returned `err` (`none` is nil), or it is blocked
for ever in `Select` with no future left on the selector. -/
inductive Outcome
  | returned (err : Option GoError)
  | blocked
  deriving DecidableEq, Repr

/-- A finished run of `BackgroundCheck`. -/
structure Run (V F S M : Type) where
  trace : List (Event × BackgroundCheckState V F S M)
  status : BackgroundCheckState V F S M
  result : Outcome

section Workflow

variable {V F S M : Type}

/-- Append an event, stamped with the current state. -/
def Machine.emit (m : Machine V F S M) (e : Event) : Machine V F S M :=
  { m with trace := m.trace ++ [(e, m.status)] }

/-- The Go function returns `err`. -/
def Machine.finish (m : Machine V F S M) (err : Option GoError) : Run V F S M :=
  { trace := m.trace, status := m.status, result := Outcome.returned err }

/-- Embeds `updateStatus` (lines 12-19): one `UpsertSearchAttributes` call with the
attribute `BackgroundCheckStatus`; its error is returned. The state is not touched. -/
def updateStatus (host : Host V F S M) (status : BackgroundCheckStatus)
    (m : Machine V F S M) : Option GoError × Machine V F S M :=
  match host.UpsertSearchAttributes status with
  | some err => (some err, m)
  | none => (none, m.emit (Event.published status))

/-- Embeds `waitForAccept` (lines 21-31): start the consent child workflow, block on
its result; `r` stays at its zero value when `Get` fails. -/
def waitForAccept (host : Host V F S M) (m : Machine V F S M) :
    AcceptSubmission × Option GoError × Machine V F S M :=
  let r : AcceptSubmission := { Accepted := false, CandidateDetails := ⟨"", "", ""⟩ }
  let m := (m.emit (Event.started Child.Accept)).emit Event.suspended
  match host.Accept with
  | Except.ok v => (v, none, m)
  | Except.error err => (r, some err, m)

/-- Callback registered for a selector future (lines 98-103, 110-115, 122-127):
`f.Get` into the slot of the check; on error the slot is untouched and the error is
logged. -/
def callback (host : Host V F S M) (candidate : CandidateDetails) (k : Check)
    (m : Machine V F S M) : Machine V F S M :=
  let m := m.emit (Event.consumed k)
  match k with
  | Check.federalCriminalSearch =>
    match host.FederalCriminalSearch ⟨candidate.FullName, candidate.Address⟩ with
    | Except.ok r => { m with status := { m.status with FederalCriminalSearch := r } }
    | Except.error err => m.emit (Event.logged ("federal criminal search: " ++ err))
  | Check.stateCriminalSearch =>
    match host.StateCriminalSearch ⟨candidate.FullName, candidate.Address⟩ with
    | Except.ok r => { m with status := { m.status with StateCriminalSearch := r } }
    | Except.error err => m.emit (Event.logged ("state criminal search: " ++ err))
  | Check.motorVehicleIncidentSearch =>
    match host.MotorVehicleIncidentSearch ⟨candidate.FullName, candidate.Address⟩ with
    | Except.ok r => { m with status := { m.status with MotorVehicleIncidentSearch := r } }
    | Except.error err => m.emit (Event.logged ("motor vehicle incident search: " ++ err))

/-- The selector: the futures added with `AddFuture` and not yet delivered. -/
structure Selector where
  futures : List Check
  deriving DecidableEq, Repr

/-- Embeds `workflow.NewSelector`. -/
def NewSelector : Selector := { futures := [] }

/-- Embeds `Selector.AddFuture`. -/
def Selector.AddFuture (s : Selector) (k : Check) : Selector :=
  { futures := s.futures ++ [k] }

/-- Embeds `Selector.Select`: block until a pending future is ready, run its callback
once and drop it from the selector. With no pending future the call never returns
(`none`). -/
def Selector.Select (host : Host V F S M) (candidate : CandidateDetails) (pick : Nat)
    (s : Selector) (m : Machine V F S M) : Option (Selector × Machine V F S M) :=
  match s.futures[pick % s.futures.length]? with
  | none => none
  | some k => some ({ futures := s.futures.erase k }, callback host candidate k (m.emit Event.suspended))

/-- Embeds the loop of lines 135-137: `n` further calls of `Select`, the next one being
call number `i`. -/
def selectLoop (host : Host V F S M) (candidate : CandidateDetails) :
    Nat → Nat → Selector → Machine V F S M → Option (Selector × Machine V F S M)
  | 0, _, s, m => some (s, m)
  | n + 1, i, s, m =>
    match s.Select host candidate (host.ready i) m with
    | none => none
    | some (s1, m1) => selectLoop host candidate n (i + 1) s1 m1

/-- Embeds lines 91-139: start the three investigative child workflows, register
them on the selector, call `Select` once per check, then publish `Completed`. -/
def investigate (host : Host V F S M) (candidate : CandidateDetails)
    (m : Machine V F S M) : Run V F S M :=
  let s := NewSelector
  let m := m.emit (Event.started (Child.FederalCriminalSearch ⟨candidate.FullName, candidate.Address⟩))
  let s := s.AddFuture Check.federalCriminalSearch
  let m := m.emit (Event.started (Child.StateCriminalSearch ⟨candidate.FullName, candidate.Address⟩))
  let s := s.AddFuture Check.stateCriminalSearch
  let m := m.emit (Event.started (Child.MotorVehicleIncidentSearch ⟨candidate.FullName, candidate.Address⟩))
  let s := s.AddFuture Check.motorVehicleIncidentSearch
  let checks := [Check.federalCriminalSearch, Check.stateCriminalSearch,
    Check.motorVehicleIncidentSearch]
  match selectLoop host candidate checks.length 0 s m with
  | none => { trace := m.trace, status := m.status, result := Outcome.blocked }
  | some (_, m) =>
    let (err, m) := updateStatus host BackgroundCheckStatus.Completed m
    m.finish err

/-- Embeds lines 72-89: run `ValidateSSN` and the two short-circuit returns, then the
investigation. -/
def validate (host : Host V F S M) (input : BackgroundCheckWorkflowInput)
    (candidate : CandidateDetails) (m : Machine V F S M) : Run V F S M :=
  let ssnInput : ValidateSSNWorkflowInput :=
    { FullName := candidate.FullName, Address := candidate.Address, SSN := candidate.SSN }
  let m := (m.emit (Event.started (Child.ValidateSSN ssnInput))).emit Event.suspended
  match host.ValidateSSN ssnInput with
  | Except.error err => m.finish (some err)
  | Except.ok v =>
    let m := { m with status := { m.status with Validate := v } }
    if !m.status.Validate.Valid then
      m.finish none
    else if input.Package != "full" then
      m.finish none
    else
      investigate host candidate m

/-- Embeds `BackgroundCheck` (lines 33-140). `zeroStatus` is the Go zero value of the
status field of the state, which the struct literal of line 36 leaves unset. -/
def BackgroundCheck [Inhabited V] [Inhabited F] [Inhabited S] [Inhabited M]
    (host : Host V F S M) (zeroStatus : Option BackgroundCheckStatus)
    (input : BackgroundCheckWorkflowInput) : Run V F S M :=
  let email := input.Email
  let m : Machine V F S M :=
    { status :=
        { Email := email
          Tier := input.Package
          CandidateDetails := ⟨"", "", ""⟩
          Validate := { Valid := false, Rest := default }
          FederalCriminalSearch := default
          StateCriminalSearch := default
          MotorVehicleIncidentSearch := default
          Status := zeroStatus }
      trace := [] }
  match host.SetQueryHandler with
  | some err => m.finish (some err)
  | none =>
    let m := m.emit Event.queryHandlerSet
    match updateStatus host BackgroundCheckStatus.PendingAccept m with
    | (some err, m) => m.finish (some err)
    | (none, m) =>
      match waitForAccept host m with
      | (_, some err, m) => m.finish (some err)
      | (c, none, m) =>
        let candidate := c.CandidateDetails
        let m := { m with status := { m.status with CandidateDetails := candidate } }
        if !c.Accepted then
          let (err, m) := updateStatus host BackgroundCheckStatus.Declined m
          m.finish err
        else
          match updateStatus host BackgroundCheckStatus.Running m with
          | (some err, m) => m.finish (some err)
          | (none, m) => validate host input candidate m

/-! ## Observables of a run -/

/-- The statuses published in a trace, in order. -/
def publishedOf (t : List (Event × BackgroundCheckState V F S M)) : List BackgroundCheckStatus :=
  t.filterMap fun p => match p.1 with
    | Event.published s => some s
    | _ => none

/-- The child workflows started in a trace, in order. -/
def startedOf (t : List (Event × BackgroundCheckState V F S M)) : List Child :=
  t.filterMap fun p => match p.1 with
    | Event.started c => some c
    | _ => none

/-- The selector futures consumed in a trace, in order. -/
def consumedOf (t : List (Event × BackgroundCheckState V F S M)) : List Check :=
  t.filterMap fun p => match p.1 with
    | Event.consumed k => some k
    | _ => none

/-- The messages logged in a trace, in order. -/
def loggedOf (t : List (Event × BackgroundCheckState V F S M)) : List String :=
  t.filterMap fun p => match p.1 with
    | Event.logged msg => some msg
    | _ => none

/-- The state snapshots a query can return in a trace: the state at each suspension
point, in order. -/
def snapshotsOf (t : List (Event × BackgroundCheckState V F S M)) :
    List (BackgroundCheckState V F S M) :=
  t.filterMap fun p => match p.1 with
    | Event.suspended => some p.2
    | _ => none

/-- Whether a child workflow is one of the three investigative checks. -/
def Child.investigative : Child → Bool
  | Child.FederalCriminalSearch _ => true
  | Child.StateCriminalSearch _ => true
  | Child.MotorVehicleIncidentSearch _ => true
  | _ => false

/-- Whether a child workflow is the identity validation. -/
def Child.validation : Child → Bool
  | Child.ValidateSSN _ => true
  | _ => false

/-- Position of a status in the order `PendingAccept`, `Running`, then the two
terminal statuses `Declined` and `Completed`. -/
def BackgroundCheckStatus.rank : BackgroundCheckStatus → Nat
  | BackgroundCheckStatus.PendingAccept => 0
  | BackgroundCheckStatus.Running => 1
  | BackgroundCheckStatus.Declined => 2
  | BackgroundCheckStatus.Completed => 2

/-- The state built by the struct literal of line 36: email and tier only, every
other field at its zero value. -/
def initialState [Inhabited V] [Inhabited F] [Inhabited S] [Inhabited M]
    (zeroStatus : Option BackgroundCheckStatus) (input : BackgroundCheckWorkflowInput) :
    BackgroundCheckState V F S M :=
  { Email := input.Email
    Tier := input.Package
    CandidateDetails := ⟨"", "", ""⟩
    Validate := { Valid := false, Rest := default }
    FederalCriminalSearch := default
    StateCriminalSearch := default
    MotorVehicleIncidentSearch := default
    Status := zeroStatus }

/-- The value a result slot holds after its check was consumed: the result of the
check when it succeeded, the previous value of the slot when it failed. -/
def slotAfter {R : Type} (outcome : Except GoError R) (previous : R) : R :=
  match outcome with
  | Except.ok r => r
  | Except.error _ => previous

/-- The state after the three investigative checks were consumed, whatever the
order. -/
def investigated (host : Host V F S M) (candidate : CandidateDetails)
    (st : BackgroundCheckState V F S M) : BackgroundCheckState V F S M :=
  { st with
    FederalCriminalSearch :=
      slotAfter (host.FederalCriminalSearch ⟨candidate.FullName, candidate.Address⟩)
        st.FederalCriminalSearch
    StateCriminalSearch :=
      slotAfter (host.StateCriminalSearch ⟨candidate.FullName, candidate.Address⟩)
        st.StateCriminalSearch
    MotorVehicleIncidentSearch :=
      slotAfter (host.MotorVehicleIncidentSearch ⟨candidate.FullName, candidate.Address⟩)
        st.MotorVehicleIncidentSearch }

/-- The state after the callback of one check ran. -/
def delivered (host : Host V F S M) (candidate : CandidateDetails) (k : Check)
    (st : BackgroundCheckState V F S M) : BackgroundCheckState V F S M :=
  match k with
  | Check.federalCriminalSearch =>
    { st with
      FederalCriminalSearch :=
        slotAfter (host.FederalCriminalSearch ⟨candidate.FullName, candidate.Address⟩)
          st.FederalCriminalSearch }
  | Check.stateCriminalSearch =>
    { st with
      StateCriminalSearch :=
        slotAfter (host.StateCriminalSearch ⟨candidate.FullName, candidate.Address⟩)
          st.StateCriminalSearch }
  | Check.motorVehicleIncidentSearch =>
    { st with
      MotorVehicleIncidentSearch :=
        slotAfter (host.MotorVehicleIncidentSearch ⟨candidate.FullName, candidate.Address⟩)
          st.MotorVehicleIncidentSearch }

/-- Two states agree on every field but the three investigative result slots. -/
def SameFrame (a b : BackgroundCheckState V F S M) : Prop :=
  a.Email = b.Email ∧ a.Tier = b.Tier ∧ a.CandidateDetails = b.CandidateDetails ∧
    a.Validate = b.Validate ∧ a.Status = b.Status

/-- The state once the candidate details of the submission `c` were copied in
(line 61). -/
def stateAfterConsent [Inhabited V] [Inhabited F] [Inhabited S] [Inhabited M]
    (zeroStatus : Option BackgroundCheckStatus) (input : BackgroundCheckWorkflowInput)
    (c : AcceptSubmission) : BackgroundCheckState V F S M :=
  { (initialState zeroStatus input : BackgroundCheckState V F S M) with
    CandidateDetails := c.CandidateDetails }

/-- The state once the validation result `v` was stored (line 78). -/
def stateAfterValidation [Inhabited V] [Inhabited F] [Inhabited S] [Inhabited M]
    (zeroStatus : Option BackgroundCheckStatus) (input : BackgroundCheckWorkflowInput)
    (c : AcceptSubmission) (v : ValidateSSNWorkflowResult V) : BackgroundCheckState V F S M :=
  { (stateAfterConsent zeroStatus input c : BackgroundCheckState V F S M) with Validate := v }

/-- The input of the validation child workflow for the submission `c` (lines 72-76). -/
def ssnInputOf (c : AcceptSubmission) : ValidateSSNWorkflowInput :=
  { FullName := c.CandidateDetails.FullName, Address := c.CandidateDetails.Address,
    SSN := c.CandidateDetails.SSN }

/-- The trace of a run up to the wait for consent. -/
def traceToConsent (s0 : BackgroundCheckState V F S M) :
    List (Event × BackgroundCheckState V F S M) :=
  [(Event.queryHandlerSet, s0), (Event.published BackgroundCheckStatus.PendingAccept, s0),
    (Event.started Child.Accept, s0), (Event.suspended, s0)]

/-- The trace of a run up to the wait for the validation, `s1` being the state after
consent. -/
def traceToValidation (s0 s1 : BackgroundCheckState V F S M) (c : AcceptSubmission) :
    List (Event × BackgroundCheckState V F S M) :=
  traceToConsent s0 ++
    [(Event.published BackgroundCheckStatus.Running, s1),
      (Event.started (Child.ValidateSSN (ssnInputOf c)), s1), (Event.suspended, s1)]

/-- The three start events of the investigative checks, `s2` being the state after
validation. -/
def traceOfStarts (s2 : BackgroundCheckState V F S M) (c : AcceptSubmission) :
    List (Event × BackgroundCheckState V F S M) :=
  [(Event.started (Child.FederalCriminalSearch
      ⟨c.CandidateDetails.FullName, c.CandidateDetails.Address⟩), s2),
    (Event.started (Child.StateCriminalSearch
      ⟨c.CandidateDetails.FullName, c.CandidateDetails.Address⟩), s2),
    (Event.started (Child.MotorVehicleIncidentSearch
      ⟨c.CandidateDetails.FullName, c.CandidateDetails.Address⟩), s2)]

/-- The order in which the three futures are delivered by the three calls of `Select`
when the first call picks the pending future of index `a` (of three) and the second call
the pending future of index `b` (of the two left). -/
def completionOrder : Nat → Nat → List Check
  | 0, 0 => [Check.federalCriminalSearch, Check.stateCriminalSearch,
      Check.motorVehicleIncidentSearch]
  | 0, _ => [Check.federalCriminalSearch, Check.motorVehicleIncidentSearch,
      Check.stateCriminalSearch]
  | 1, 0 => [Check.stateCriminalSearch, Check.federalCriminalSearch,
      Check.motorVehicleIncidentSearch]
  | 1, _ => [Check.stateCriminalSearch, Check.motorVehicleIncidentSearch,
      Check.federalCriminalSearch]
  | _, 0 => [Check.motorVehicleIncidentSearch, Check.federalCriminalSearch,
      Check.stateCriminalSearch]
  | _, _ => [Check.motorVehicleIncidentSearch, Check.stateCriminalSearch,
      Check.federalCriminalSearch]

/-- What the three calls of `Select` add to the trace, from the state `st`: three
suspensions, each check consumed once in the order chosen by `ready`, log messages,
nothing published or started, and only the investigative slots of the stamped states
differ from `st`. -/
def SelectTrace (ready : Nat → Nat) (st : BackgroundCheckState V F S M)
    (l : List (Event × BackgroundCheckState V F S M)) : Prop :=
  (∀ p ∈ l, SameFrame st p.2) ∧ publishedOf l = [] ∧ startedOf l = [] ∧
    consumedOf l = completionOrder (ready 0 % 3) (ready 1 % 2) ∧
    (snapshotsOf l).length = 3

/-- The paths of `BackgroundCheck`: which host outcomes select the path and what
the run `r` is on it. -/
inductive Path [Inhabited V] [Inhabited F] [Inhabited S] [Inhabited M]
    (host : Host V F S M) (z : Option BackgroundCheckStatus)
    (input : BackgroundCheckWorkflowInput) (r : Run V F S M) : Prop
  | queryHandlerFailed (e : GoError) (hq : host.SetQueryHandler = some e)
      (hr : r = ⟨[], initialState z input, Outcome.returned (some e)⟩)
  | pendingFailed (e : GoError) (hq : host.SetQueryHandler = none)
      (hp : host.UpsertSearchAttributes BackgroundCheckStatus.PendingAccept = some e)
      (hr : r = ⟨[(Event.queryHandlerSet, initialState z input)], initialState z input,
        Outcome.returned (some e)⟩)
  | consentFailed (e : GoError) (hq : host.SetQueryHandler = none)
      (hp : host.UpsertSearchAttributes BackgroundCheckStatus.PendingAccept = none)
      (ha : host.Accept = Except.error e)
      (hr : r = ⟨traceToConsent (initialState z input), initialState z input,
        Outcome.returned (some e)⟩)
  | declinedFailed (c : AcceptSubmission) (e : GoError) (hq : host.SetQueryHandler = none)
      (hp : host.UpsertSearchAttributes BackgroundCheckStatus.PendingAccept = none)
      (ha : host.Accept = Except.ok c) (hacc : c.Accepted = false)
      (hd : host.UpsertSearchAttributes BackgroundCheckStatus.Declined = some e)
      (hr : r = ⟨traceToConsent (initialState z input), stateAfterConsent z input c,
        Outcome.returned (some e)⟩)
  | declined (c : AcceptSubmission) (hq : host.SetQueryHandler = none)
      (hp : host.UpsertSearchAttributes BackgroundCheckStatus.PendingAccept = none)
      (ha : host.Accept = Except.ok c) (hacc : c.Accepted = false)
      (hd : host.UpsertSearchAttributes BackgroundCheckStatus.Declined = none)
      (hr : r = ⟨traceToConsent (initialState z input) ++
          [(Event.published BackgroundCheckStatus.Declined, stateAfterConsent z input c)],
        stateAfterConsent z input c, Outcome.returned none⟩)
  | runningFailed (c : AcceptSubmission) (e : GoError) (hq : host.SetQueryHandler = none)
      (hp : host.UpsertSearchAttributes BackgroundCheckStatus.PendingAccept = none)
      (ha : host.Accept = Except.ok c) (hacc : c.Accepted = true)
      (hd : host.UpsertSearchAttributes BackgroundCheckStatus.Running = some e)
      (hr : r = ⟨traceToConsent (initialState z input), stateAfterConsent z input c,
        Outcome.returned (some e)⟩)
  | validationFailed (c : AcceptSubmission) (e : GoError) (hq : host.SetQueryHandler = none)
      (hp : host.UpsertSearchAttributes BackgroundCheckStatus.PendingAccept = none)
      (ha : host.Accept = Except.ok c) (hacc : c.Accepted = true)
      (hd : host.UpsertSearchAttributes BackgroundCheckStatus.Running = none)
      (hv : host.ValidateSSN (ssnInputOf c) = Except.error e)
      (hr : r = ⟨traceToValidation (initialState z input) (stateAfterConsent z input c) c,
        stateAfterConsent z input c, Outcome.returned (some e)⟩)
  | invalid (c : AcceptSubmission) (v : ValidateSSNWorkflowResult V)
      (hq : host.SetQueryHandler = none)
      (hp : host.UpsertSearchAttributes BackgroundCheckStatus.PendingAccept = none)
      (ha : host.Accept = Except.ok c) (hacc : c.Accepted = true)
      (hd : host.UpsertSearchAttributes BackgroundCheckStatus.Running = none)
      (hv : host.ValidateSSN (ssnInputOf c) = Except.ok v) (hvalid : v.Valid = false)
      (hr : r = ⟨traceToValidation (initialState z input) (stateAfterConsent z input c) c,
        stateAfterValidation z input c v, Outcome.returned none⟩)
  | tierExcluded (c : AcceptSubmission) (v : ValidateSSNWorkflowResult V)
      (hq : host.SetQueryHandler = none)
      (hp : host.UpsertSearchAttributes BackgroundCheckStatus.PendingAccept = none)
      (ha : host.Accept = Except.ok c) (hacc : c.Accepted = true)
      (hd : host.UpsertSearchAttributes BackgroundCheckStatus.Running = none)
      (hv : host.ValidateSSN (ssnInputOf c) = Except.ok v) (hvalid : v.Valid = true)
      (ht : input.Package ≠ "full")
      (hr : r = ⟨traceToValidation (initialState z input) (stateAfterConsent z input c) c,
        stateAfterValidation z input c v, Outcome.returned none⟩)
  | completedFailed (c : AcceptSubmission) (v : ValidateSSNWorkflowResult V) (e : GoError)
      (l : List (Event × BackgroundCheckState V F S M))
      (hq : host.SetQueryHandler = none)
      (hp : host.UpsertSearchAttributes BackgroundCheckStatus.PendingAccept = none)
      (ha : host.Accept = Except.ok c) (hacc : c.Accepted = true)
      (hd : host.UpsertSearchAttributes BackgroundCheckStatus.Running = none)
      (hv : host.ValidateSSN (ssnInputOf c) = Except.ok v) (hvalid : v.Valid = true)
      (ht : input.Package = "full")
      (hl : SelectTrace host.ready (stateAfterValidation z input c v) l)
      (hc : host.UpsertSearchAttributes BackgroundCheckStatus.Completed = some e)
      (hr : r = ⟨traceToValidation (initialState z input) (stateAfterConsent z input c) c ++
          traceOfStarts (stateAfterValidation z input c v) c ++ l,
        investigated host c.CandidateDetails (stateAfterValidation z input c v),
        Outcome.returned (some e)⟩)
  | completed (c : AcceptSubmission) (v : ValidateSSNWorkflowResult V)
      (l : List (Event × BackgroundCheckState V F S M))
      (hq : host.SetQueryHandler = none)
      (hp : host.UpsertSearchAttributes BackgroundCheckStatus.PendingAccept = none)
      (ha : host.Accept = Except.ok c) (hacc : c.Accepted = true)
      (hd : host.UpsertSearchAttributes BackgroundCheckStatus.Running = none)
      (hv : host.ValidateSSN (ssnInputOf c) = Except.ok v) (hvalid : v.Valid = true)
      (ht : input.Package = "full")
      (hl : SelectTrace host.ready (stateAfterValidation z input c v) l)
      (hc : host.UpsertSearchAttributes BackgroundCheckStatus.Completed = none)
      (hr : r = ⟨traceToValidation (initialState z input) (stateAfterConsent z input c) c ++
          traceOfStarts (stateAfterValidation z input c v) c ++ l ++
          [(Event.published BackgroundCheckStatus.Completed,
            investigated host c.CandidateDetails (stateAfterValidation z input c v))],
        investigated host c.CandidateDetails (stateAfterValidation z input c v),
        Outcome.returned none⟩)

/-- The investigative child workflows started in a run, in order. -/
def investigativeStarted (r : Run V F S M) : List Child :=
  (startedOf r.trace).filter Child.investigative

/-- The validation child workflows started in a run, in order. -/
def validationStarted (r : Run V F S M) : List Child :=
  (startedOf r.trace).filter Child.validation

/-- In the run `r` on `host` the consent child workflow was started and returned a
submission with `Accepted = true`. -/
def ConsentAccepted (host : Host V F S M) (r : Run V F S M) : Prop :=
  Child.Accept ∈ startedOf r.trace ∧ ∃ c, host.Accept = Except.ok c ∧ c.Accepted = true

/-- In the run `r` on `host` the validation child workflow was started and returned a
result with `Valid = true`. -/
def ValidationValid (host : Host V F S M) (r : Run V F S M) : Prop :=
  ∃ i v, Child.ValidateSSN i ∈ startedOf r.trace ∧ host.ValidateSSN i = Except.ok v ∧
    v.Valid = true

/-- Whether an event is the start of the validation child workflow. -/
def startsValidation : Event → Bool
  | Event.started c => c.validation
  | _ => false

/-- Whether an event is the start of an investigative child workflow. -/
def startsInvestigative : Event → Bool
  | Event.started c => c.investigative
  | _ => false

/-- The part of a trace from the start of the validation child workflow onwards (empty
when validation is never started). -/
def fromValidation (t : List (Event × BackgroundCheckState V F S M)) :
    List (Event × BackgroundCheckState V F S M) :=
  t.dropWhile fun p => !startsValidation p.1

/-- The query follows the published status along a trace: at every suspension point
the status field of the state returned by the query handler is the status most recently
published (`cur` is the one published before the trace starts). -/
def QueryTracksStatus (cur : Option BackgroundCheckStatus) :
    List (Event × BackgroundCheckState V F S M) → Prop
  | [] => True
  | (Event.published s, _) :: t => QueryTracksStatus (some s) t
  | (Event.suspended, st) :: t => st.Status = cur ∧ QueryTracksStatus cur t
  | (Event.queryHandlerSet, _) :: t => QueryTracksStatus cur t
  | (Event.started _, _) :: t => QueryTracksStatus cur t
  | (Event.consumed _, _) :: t => QueryTracksStatus cur t
  | (Event.logged _, _) :: t => QueryTracksStatus cur t

/-- Candidate details used in the examples. -/
def sampleDetails : CandidateDetails :=
  { FullName := "Ann Lee", Address := "1 Main St", SSN := "111-11-1111" }

/-- A host on which every call succeeds: consent accepted with `sampleDetails`,
validation valid, the three checks return a result, futures delivered in registration
order. -/
def sampleHost : Host Nat String String String :=
  { SetQueryHandler := none
    UpsertSearchAttributes := fun _ => none
    Accept := Except.ok { Accepted := true, CandidateDetails := sampleDetails }
    ValidateSSN := fun _ => Except.ok { Valid := true, Rest := 1 }
    FederalCriminalSearch := fun _ => Except.ok "federal: clear"
    StateCriminalSearch := fun _ => Except.ok "state: clear"
    MotorVehicleIncidentSearch := fun _ => Except.ok "motor: clear"
    ready := fun _ => 0 }

/-- The host `sampleHost` with the consent declined, the submission still carrying
`sampleDetails`. -/
def decliningHost : Host Nat String String String :=
  { sampleHost with Accept := Except.ok { Accepted := false, CandidateDetails := sampleDetails } }

/-- The host `sampleHost` on which publishing a status with `updateStatus` fails for
the status `failing` and succeeds for the others. -/
def publishFailingHost (failing : BackgroundCheckStatus) : Host Nat String String String :=
  { sampleHost with
    UpsertSearchAttributes := fun s =>
      if s = failing then some "search attributes unavailable" else none }

/-- The host `sampleHost` on which the state criminal search fails. -/
def stateFailingHost : Host Nat String String String :=
  { sampleHost with StateCriminalSearch := fun _ => Except.error "provider down" }

/-- The host `sampleHost` on which the consent child workflow fails. -/
def consentFailingHost : Host Nat String String String :=
  { sampleHost with Accept := Except.error "consent workflow failed" }

/-- The host `sampleHost` on which the validation child workflow fails. -/
def validationFailingHost : Host Nat String String String :=
  { sampleHost with ValidateSSN := fun _ => Except.error "ssn trace failed" }

/-- The host `sampleHost` on which the validation reports an invalid identity. -/
def invalidHost : Host Nat String String String :=
  { sampleHost with ValidateSSN := fun _ => Except.ok { Valid := false, Rest := 0 } }

/-- The host `decliningHost` on which publishing `Declined` fails. -/
def decliningPublishFailingHost : Host Nat String String String :=
  { decliningHost with
    UpsertSearchAttributes := fun s =>
      if s = BackgroundCheckStatus.Declined then some "search attributes unavailable"
      else none }

/-- Workflow input for the tier `full`. -/
def fullInput : BackgroundCheckWorkflowInput := { Email := "ann@example.com", Package := "full" }

/-- Workflow input for the tier `basic`. -/
def basicInput : BackgroundCheckWorkflowInput := { Email := "ann@example.com", Package := "basic" }

end Workflow

/-! ## The activity `FederalCriminalSearch` -/

section Activity

/-- The request built at lines 31-35: method, URL, `Content-Type` header and body. -/
structure Request where
  Method : String
  URL : String
  ContentType : String
  Body : String
  deriving DecidableEq, Repr

/-- The response body stream `r.Body`: the bytes that can be read from it and the
error, if any, that ends the reading. -/
structure BodyStream where
  data : String
  err : Option GoError
  deriving DecidableEq, Repr

/-- An HTTP response as far as the activity reads it: `r.StatusCode` and `r.Body`. -/
structure Response where
  StatusCode : Int
  Body : BodyStream
  deriving DecidableEq, Repr

/-- Go `http.StatusOK`. -/
def StatusOK : Int := 200

/-- Go `http.MethodPost`. -/
def MethodPost : String := "POST"

/-- Go `http.StatusText` (package `net/http`): the text of a status code, empty
for an unknown code. -/
def StatusText (code : Int) : String :=
  if code = 100 then "Continue"
  else if code = 101 then "Switching Protocols"
  else if code = 102 then "Processing"
  else if code = 103 then "Early Hints"
  else if code = 200 then "OK"
  else if code = 201 then "Created"
  else if code = 202 then "Accepted"
  else if code = 203 then "Non-Authoritative Information"
  else if code = 204 then "No Content"
  else if code = 205 then "Reset Content"
  else if code = 206 then "Partial Content"
  else if code = 207 then "Multi-Status"
  else if code = 208 then "Already Reported"
  else if code = 226 then "IM Used"
  else if code = 300 then "Multiple Choices"
  else if code = 301 then "Moved Permanently"
  else if code = 302 then "Found"
  else if code = 303 then "See Other"
  else if code = 304 then "Not Modified"
  else if code = 305 then "Use Proxy"
  else if code = 307 then "Temporary Redirect"
  else if code = 308 then "Permanent Redirect"
  else if code = 400 then "Bad Request"
  else if code = 401 then "Unauthorized"
  else if code = 402 then "Payment Required"
  else if code = 403 then "Forbidden"
  else if code = 404 then "Not Found"
  else if code = 405 then "Method Not Allowed"
  else if code = 406 then "Not Acceptable"
  else if code = 407 then "Proxy Authentication Required"
  else if code = 408 then "Request Timeout"
  else if code = 409 then "Conflict"
  else if code = 410 then "Gone"
  else if code = 411 then "Length Required"
  else if code = 412 then "Precondition Failed"
  else if code = 413 then "Request Entity Too Large"
  else if code = 414 then "Request URI Too Long"
  else if code = 415 then "Unsupported Media Type"
  else if code = 416 then "Requested Range Not Satisfiable"
  else if code = 417 then "Expectation Failed"
  else if code = 418 then "I\x27m a teapot"
  else if code = 421 then "Misdirected Request"
  else if code = 422 then "Unprocessable Entity"
  else if code = 423 then "Locked"
  else if code = 424 then "Failed Dependency"
  else if code = 425 then "Too Early"
  else if code = 426 then "Upgrade Required"
  else if code = 428 then "Precondition Required"
  else if code = 429 then "Too Many Requests"
  else if code = 431 then "Request Header Fields Too Large"
  else if code = 451 then "Unavailable For Legal Reasons"
  else if code = 500 then "Internal Server Error"
  else if code = 501 then "Not Implemented"
  else if code = 502 then "Bad Gateway"
  else if code = 503 then "Service Unavailable"
  else if code = 504 then "Gateway Timeout"
  else if code = 505 then "HTTP Version Not Supported"
  else if code = 506 then "Variant Also Negotiates"
  else if code = 507 then "Insufficient Storage"
  else if code = 508 then "Loop Detected"
  else if code = 510 then "Not Extended"
  else if code = 511 then "Network Authentication Required"
  else ""

/-- Outcomes of the library calls made by the activity, for an input type `I` and a
result type `R` (both declared in the absent package `types`): `url.Parse` followed by
`URL.String`, `json.Marshal`, `http.NewRequestWithContext`, `http.Client.Do` (with the
5 second timeout of the client) and `json.Decoder.Decode` into a result variable. -/
structure Transport (I R : Type) where
  Parse : String → Except GoError String
  Marshal : I → Except GoError String
  NewRequestWithContext : String → String → String → Option GoError
  Do : Request → Except GoError Response
  Decode : BodyStream → R → R × Option GoError

/-- Embeds `ioutil.ReadAll`: the bytes read and the error that stopped the reading. -/
def ReadAll (b : BodyStream) : String × Option GoError := (b.data, b.err)

/-- Embeds `Activities.FederalCriminalSearch` (lines 18-55): the returned result and
error (`none` is nil). -/
def FederalCriminalSearch {I R : Type} [Inhabited R] (t : Transport I R) (input : I) :
    R × Option GoError :=
  let result : R := default
  match t.Parse "http://thirdparty:8082/federalcriminalsearch" with
  | Except.error err => (result, some err)
  | Except.ok requestURL =>
    match t.Marshal input with
    | Except.error err => (result, some ("unable to encode input: " ++ err))
    | Except.ok jsonInput =>
      match t.NewRequestWithContext MethodPost requestURL jsonInput with
      | some err => (result, some ("unable to build request: " ++ err))
      | none =>
        let req : Request :=
          { Method := MethodPost, URL := requestURL, ContentType := "application/json",
            Body := jsonInput }
        match t.Do req with
        | Except.error err => (result, some err)
        | Except.ok r =>
          if r.StatusCode ≠ StatusOK then
            let body := (ReadAll r.Body).1
            (result, some (StatusText r.StatusCode ++ ": " ++ body))
          else
            t.Decode r.Body result

/-- A transport on which every library call succeeds and the provider answers with
the status code `code` and the body `body`; a body is decoded as itself. -/
def respondingTransport (code : Int) (body : String) : Transport String String :=
  { Parse := fun u => Except.ok u
    Marshal := fun i => Except.ok i
    NewRequestWithContext := fun _ _ _ => none
    Do := fun _ => Except.ok { StatusCode := code, Body := { data := body, err := none } }
    Decode := fun b _ => (b.data, b.err) }

end Activity

end BackgroundChecks

/-! ## Lemmas on the embedding -/

namespace BackgroundChecks

section Lemmas

variable {V F S M : Type}

theorem sameFrame_refl (a : BackgroundCheckState V F S M) : SameFrame a a :=
  ⟨rfl, rfl, rfl, rfl, rfl⟩

theorem sameFrame_trans {a b c : BackgroundCheckState V F S M} (h1 : SameFrame a b)
    (h2 : SameFrame b c) : SameFrame a c :=
  ⟨h1.1.trans h2.1, h1.2.1.trans h2.2.1, h1.2.2.1.trans h2.2.2.1,
    h1.2.2.2.1.trans h2.2.2.2.1, h1.2.2.2.2.trans h2.2.2.2.2⟩

theorem sameFrame_delivered (host : Host V F S M) (c : CandidateDetails) (k : Check)
    (st : BackgroundCheckState V F S M) : SameFrame st (delivered host c k st) := by
  cases k <;> exact ⟨rfl, rfl, rfl, rfl, rfl⟩

theorem delivered_perm (host : Host V F S M) (c : CandidateDetails) (k1 k2 k3 : Check)
    (st : BackgroundCheckState V F S M)
    (h : [k1, k2, k3].Perm [Check.federalCriminalSearch, Check.stateCriminalSearch,
      Check.motorVehicleIncidentSearch]) :
    delivered host c k3 (delivered host c k2 (delivered host c k1 st)) =
      investigated host c st := by
  cases k1 <;> cases k2 <;> cases k3 <;> first | rfl | (exact absurd h (by decide))

theorem callback_spec (host : Host V F S M) (c : CandidateDetails) (k : Check)
    (m : Machine V F S M) :
    (callback host c k m).status = delivered host c k m.status ∧
    ∃ l, (callback host c k m).trace = m.trace ++ (Event.consumed k, m.status) :: l ∧
      ∀ p ∈ l, p.2 = m.status ∧ ∃ msg, p.1 = Event.logged msg := by
  cases k
  · generalize hf : host.FederalCriminalSearch ⟨c.FullName, c.Address⟩ = rf
    rcases rf with e | v <;> simp [callback, delivered, slotAfter, Machine.emit, hf]
  · generalize hf : host.StateCriminalSearch ⟨c.FullName, c.Address⟩ = rf
    rcases rf with e | v <;> simp [callback, delivered, slotAfter, Machine.emit, hf]
  · generalize hf : host.MotorVehicleIncidentSearch ⟨c.FullName, c.Address⟩ = rf
    rcases rf with e | v <;> simp [callback, delivered, slotAfter, Machine.emit, hf]

theorem completionOrder_perm (a b : Nat) :
    (completionOrder a b).Perm [Check.federalCriminalSearch, Check.stateCriminalSearch,
      Check.motorVehicleIncidentSearch] := by
  rcases a with _ | _ | a <;> rcases b with _ | b <;> simp only [completionOrder] <;> decide

theorem selectLoop_order (host : Host V F S M) (c : CandidateDetails) (m : Machine V F S M) :
    ∃ k1 k2 k3, completionOrder (host.ready 0 % 3) (host.ready 1 % 2) = [k1, k2, k3] ∧
      selectLoop host c 3 0 ⟨[Check.federalCriminalSearch, Check.stateCriminalSearch,
        Check.motorVehicleIncidentSearch]⟩ m =
      some (⟨[]⟩, callback host c k3 ((callback host c k2 ((callback host c k1
        (m.emit Event.suspended)).emit Event.suspended)).emit Event.suspended)) := by
  have h0 : host.ready 0 % 3 < 3 := Nat.mod_lt _ (by decide)
  have h1 : host.ready 1 % 2 < 2 := Nat.mod_lt _ (by decide)
  generalize ha : host.ready 0 % 3 = a at h0
  generalize hb : host.ready 1 % 2 = b at h1
  interval_cases a <;> interval_cases b
  · exact ⟨Check.federalCriminalSearch, Check.stateCriminalSearch,
      Check.motorVehicleIncidentSearch, rfl,
      by simp [selectLoop, Selector.Select, ha, hb, Nat.mod_one]⟩
  · exact ⟨Check.federalCriminalSearch, Check.motorVehicleIncidentSearch,
      Check.stateCriminalSearch, rfl,
      by simp [selectLoop, Selector.Select, ha, hb, Nat.mod_one]⟩
  · exact ⟨Check.stateCriminalSearch, Check.federalCriminalSearch,
      Check.motorVehicleIncidentSearch, rfl,
      by simp [selectLoop, Selector.Select, ha, hb, Nat.mod_one]⟩
  · exact ⟨Check.stateCriminalSearch, Check.motorVehicleIncidentSearch,
      Check.federalCriminalSearch, rfl,
      by simp [selectLoop, Selector.Select, ha, hb, Nat.mod_one]⟩
  · exact ⟨Check.motorVehicleIncidentSearch, Check.federalCriminalSearch,
      Check.stateCriminalSearch, rfl,
      by simp [selectLoop, Selector.Select, ha, hb, Nat.mod_one]⟩
  · exact ⟨Check.motorVehicleIncidentSearch, Check.stateCriminalSearch,
      Check.federalCriminalSearch, rfl,
      by simp [selectLoop, Selector.Select, ha, hb, Nat.mod_one]⟩

theorem observables_of_logged (l : List (Event × BackgroundCheckState V F S M))
    (h : ∀ p ∈ l, ∃ msg, p.1 = Event.logged msg) :
    publishedOf l = [] ∧ startedOf l = [] ∧ consumedOf l = [] ∧ snapshotsOf l = [] := by
  induction l with
  | nil => simp [publishedOf, startedOf, consumedOf, snapshotsOf]
  | cons p t ih =>
    obtain ⟨msg, hp⟩ := h p (List.mem_cons_self _ _)
    have ht := ih fun q hq => h q (List.mem_cons_of_mem _ hq)
    simp only [publishedOf, startedOf, consumedOf, snapshotsOf] at ht ⊢
    simp [List.filterMap_cons, hp, ht.1, ht.2.1, ht.2.2.1, ht.2.2.2]

theorem investigate_spec (host : Host V F S M) (c : CandidateDetails) (m : Machine V F S M) :
    ∃ l, SelectTrace host.ready m.status l ∧
      investigate host c m =
        match host.UpsertSearchAttributes BackgroundCheckStatus.Completed with
        | some e =>
          ⟨m.trace ++
            [(Event.started (Child.FederalCriminalSearch ⟨c.FullName, c.Address⟩), m.status),
              (Event.started (Child.StateCriminalSearch ⟨c.FullName, c.Address⟩), m.status),
              (Event.started (Child.MotorVehicleIncidentSearch ⟨c.FullName, c.Address⟩),
                m.status)] ++ l,
            investigated host c m.status, Outcome.returned (some e)⟩
        | none =>
          ⟨m.trace ++
            [(Event.started (Child.FederalCriminalSearch ⟨c.FullName, c.Address⟩), m.status),
              (Event.started (Child.StateCriminalSearch ⟨c.FullName, c.Address⟩), m.status),
              (Event.started (Child.MotorVehicleIncidentSearch ⟨c.FullName, c.Address⟩),
                m.status)] ++ l ++
            [(Event.published BackgroundCheckStatus.Completed, investigated host c m.status)],
            investigated host c m.status, Outcome.returned none⟩ := by
  obtain ⟨k1, k2, k3, hord, hsel⟩ := selectLoop_order host c
    (((m.emit (Event.started (Child.FederalCriminalSearch ⟨c.FullName, c.Address⟩))).emit
      (Event.started (Child.StateCriminalSearch ⟨c.FullName, c.Address⟩))).emit
      (Event.started (Child.MotorVehicleIncidentSearch ⟨c.FullName, c.Address⟩)))
  generalize hm3 : (((m.emit (Event.started (Child.FederalCriminalSearch
      ⟨c.FullName, c.Address⟩))).emit
      (Event.started (Child.StateCriminalSearch ⟨c.FullName, c.Address⟩))).emit
      (Event.started (Child.MotorVehicleIncidentSearch ⟨c.FullName, c.Address⟩))) = m3 at hsel
  have hperm : [k1, k2, k3].Perm [Check.federalCriminalSearch, Check.stateCriminalSearch,
      Check.motorVehicleIncidentSearch] := hord ▸ completionOrder_perm _ _
  have hm3s : m3.status = m.status := by subst hm3; rfl
  have hm3t : m3.trace = m.trace ++
      [(Event.started (Child.FederalCriminalSearch ⟨c.FullName, c.Address⟩), m.status),
        (Event.started (Child.StateCriminalSearch ⟨c.FullName, c.Address⟩), m.status),
        (Event.started (Child.MotorVehicleIncidentSearch ⟨c.FullName, c.Address⟩),
          m.status)] := by
    subst hm3; simp [Machine.emit]
  obtain ⟨hs1, l1, ht1, hl1⟩ := callback_spec host c k1 (m3.emit Event.suspended)
  obtain ⟨hs2, l2, ht2, hl2⟩ := callback_spec host c k2
    ((callback host c k1 (m3.emit Event.suspended)).emit Event.suspended)
  obtain ⟨hs3, l3, ht3, hl3⟩ := callback_spec host c k3
    ((callback host c k2 ((callback host c k1
      (m3.emit Event.suspended)).emit Event.suspended)).emit Event.suspended)
  generalize hc1 : callback host c k1 (m3.emit Event.suspended) = c1 at *
  generalize hc2 : callback host c k2 (c1.emit Event.suspended) = c2 at *
  generalize hc3 : callback host c k3 (c2.emit Event.suspended) = c3 at *
  have e1 : c1.status = delivered host c k1 m.status := by
    rw [hs1]; simp [Machine.emit, hm3s]
  have e2 : c2.status = delivered host c k2 (delivered host c k1 m.status) := by
    rw [hs2]; simp [Machine.emit, e1]
  have e3 : c3.status = investigated host c m.status := by
    rw [hs3, ← delivered_perm host c k1 k2 k3 m.status hperm]; simp [Machine.emit, e2]
  have f1 : SameFrame m.status c1.status := e1 ▸ sameFrame_delivered host c k1 m.status
  have f2 : SameFrame m.status c2.status :=
    e2 ▸ sameFrame_trans (sameFrame_delivered host c k1 m.status)
      (sameFrame_delivered host c k2 _)
  have o1 := observables_of_logged l1 fun p hp => (hl1 p hp).2
  have o2 := observables_of_logged l2 fun p hp => (hl2 p hp).2
  have o3 := observables_of_logged l3 fun p hp => (hl3 p hp).2
  have t3 : c3.trace = m3.trace ++ ((Event.suspended, m.status) ::
      (Event.consumed k1, m.status) :: l1 ++ (Event.suspended, c1.status) ::
      (Event.consumed k2, c1.status) :: l2 ++ (Event.suspended, c2.status) ::
      (Event.consumed k3, c2.status) :: l3) := by
    rw [ht3]
    simp only [Machine.emit] at ht1 ht2 ⊢
    rw [ht2, ht1, hm3s]
    simp
  refine ⟨(Event.suspended, m.status) ::
      (Event.consumed k1, m.status) :: l1 ++ (Event.suspended, c1.status) ::
      (Event.consumed k2, c1.status) :: l2 ++ (Event.suspended, c2.status) ::
      (Event.consumed k3, c2.status) :: l3, ⟨?_, ?_, ?_, ?_, ?_⟩, ?_⟩
  · intro p hp
    simp only [List.mem_cons, List.mem_append] at hp
    rcases hp with ((rfl | rfl | hp) | rfl | rfl | hp) | rfl | rfl | hp
    · exact sameFrame_refl _
    · exact sameFrame_refl _
    · rw [(hl1 p hp).1]; simp only [Machine.emit, hm3s]; exact sameFrame_refl _
    · exact f1
    · exact f1
    · rw [(hl2 p hp).1]; simp only [Machine.emit]; exact f1
    · exact f2
    · exact f2
    · rw [(hl3 p hp).1]; simp only [Machine.emit]; exact f2
  · simp only [publishedOf] at o1 o2 o3 ⊢
    simp [List.filterMap_append, List.filterMap_cons, o1.1, o2.1, o3.1]
  · simp only [startedOf] at o1 o2 o3 ⊢
    simp [List.filterMap_append, List.filterMap_cons, o1.2.1, o2.2.1, o3.2.1]
  · simp only [consumedOf] at o1 o2 o3 ⊢
    simp [List.filterMap_append, List.filterMap_cons, o1.2.2.1, o2.2.2.1, o3.2.2.1, hord]
  · simp only [snapshotsOf] at o1 o2 o3 ⊢
    simp [List.filterMap_append, List.filterMap_cons, o1.2.2.2, o2.2.2.2, o3.2.2.2]
  · simp only [investigate, NewSelector, Selector.AddFuture, List.nil_append, List.cons_append,
      List.length_cons, List.length_nil, hm3]
    rw [hsel]
    rcases hu : host.UpsertSearchAttributes BackgroundCheckStatus.Completed with _ | e
    · simp [updateStatus, hu, Machine.finish, Machine.emit, t3, hm3t, e3]
    · simp [updateStatus, hu, Machine.finish, t3, hm3t, e3]

theorem run_path [Inhabited V] [Inhabited F] [Inhabited S] [Inhabited M]
    (host : Host V F S M) (z : Option BackgroundCheckStatus)
    (input : BackgroundCheckWorkflowInput) :
    Path host z input (BackgroundCheck host z input) := by
  rcases hq : host.SetQueryHandler with _ | e
  swap
  · exact Path.queryHandlerFailed e hq (by simp [BackgroundCheck, hq, Machine.finish, initialState])
  rcases hp : host.UpsertSearchAttributes BackgroundCheckStatus.PendingAccept with _ | e
  swap
  · exact Path.pendingFailed e hq hp
      (by simp [BackgroundCheck, hq, hp, updateStatus, Machine.finish, Machine.emit, initialState])
  rcases ha : host.Accept with e | c
  · exact Path.consentFailed e hq hp ha
      (by simp [BackgroundCheck, hq, hp, ha, updateStatus, waitForAccept, Machine.finish,
        Machine.emit, initialState, traceToConsent])
  rcases hacc : c.Accepted with _ | _
  · rcases hd : host.UpsertSearchAttributes BackgroundCheckStatus.Declined with _ | e
    · exact Path.declined c hq hp ha hacc hd
        (by simp [BackgroundCheck, hq, hp, ha, hacc, hd, updateStatus, waitForAccept,
          Machine.finish, Machine.emit, initialState, traceToConsent, stateAfterConsent])
    · exact Path.declinedFailed c e hq hp ha hacc hd
        (by simp [BackgroundCheck, hq, hp, ha, hacc, hd, updateStatus, waitForAccept,
          Machine.finish, Machine.emit, initialState, traceToConsent, stateAfterConsent])
  rcases hd : host.UpsertSearchAttributes BackgroundCheckStatus.Running with _ | e
  swap
  · exact Path.runningFailed c e hq hp ha hacc hd
      (by simp [BackgroundCheck, hq, hp, ha, hacc, hd, updateStatus, waitForAccept,
        Machine.finish, Machine.emit, initialState, traceToConsent, stateAfterConsent])
  rcases hv : host.ValidateSSN (ssnInputOf c) with e | v
  · exact Path.validationFailed c e hq hp ha hacc hd hv
      (by
        simp only [ssnInputOf] at hv
        simp [BackgroundCheck, hq, hp, ha, hacc, hd, hv, updateStatus, waitForAccept, validate,
          Machine.finish, Machine.emit, initialState, traceToConsent, traceToValidation,
          stateAfterConsent, ssnInputOf])
  rcases hvalid : v.Valid with _ | _
  · exact Path.invalid c v hq hp ha hacc hd hv hvalid
      (by
        simp only [ssnInputOf] at hv
        simp [BackgroundCheck, hq, hp, ha, hacc, hd, hv, hvalid, updateStatus, waitForAccept,
          validate, Machine.finish, Machine.emit, initialState, traceToConsent,
          traceToValidation, stateAfterConsent, stateAfterValidation, ssnInputOf])
  by_cases ht : input.Package = "full"
  swap
  · exact Path.tierExcluded c v hq hp ha hacc hd hv hvalid ht
      (by
        simp only [ssnInputOf] at hv
        simp [BackgroundCheck, hq, hp, ha, hacc, hd, hv, hvalid, ht, updateStatus, waitForAccept,
          validate, Machine.finish, Machine.emit, initialState, traceToConsent,
          traceToValidation, stateAfterConsent, stateAfterValidation, ssnInputOf])
  obtain ⟨l, hl, hi⟩ := investigate_spec host c.CandidateDetails
    ⟨stateAfterValidation z input c v,
      traceToValidation (initialState z input) (stateAfterConsent z input c) c⟩
  have hrun : BackgroundCheck host z input = investigate host c.CandidateDetails
      ⟨stateAfterValidation z input c v,
        traceToValidation (initialState z input) (stateAfterConsent z input c) c⟩ := by
    simp only [ssnInputOf] at hv
    simp [BackgroundCheck, hq, hp, ha, hacc, hd, hv, hvalid, ht, updateStatus, waitForAccept,
      validate, Machine.emit, initialState, traceToConsent,
      traceToValidation, stateAfterConsent, stateAfterValidation, ssnInputOf]
  rcases hc : host.UpsertSearchAttributes BackgroundCheckStatus.Completed with _ | e
  · exact Path.completed c v l hq hp ha hacc hd hv hvalid ht hl hc
      (by rw [hrun, hi]; simp [hc, traceOfStarts])
  · exact Path.completedFailed c v e l hq hp ha hacc hd hv hvalid ht hl hc
      (by rw [hrun, hi]; simp [hc, traceOfStarts])

theorem publishedOf_append (a b : List (Event × BackgroundCheckState V F S M)) :
    publishedOf (a ++ b) = publishedOf a ++ publishedOf b :=
  List.filterMap_append _ _ _

theorem startedOf_append (a b : List (Event × BackgroundCheckState V F S M)) :
    startedOf (a ++ b) = startedOf a ++ startedOf b :=
  List.filterMap_append _ _ _

theorem consumedOf_append (a b : List (Event × BackgroundCheckState V F S M)) :
    consumedOf (a ++ b) = consumedOf a ++ consumedOf b :=
  List.filterMap_append _ _ _

theorem snapshotsOf_append (a b : List (Event × BackgroundCheckState V F S M)) :
    snapshotsOf (a ++ b) = snapshotsOf a ++ snapshotsOf b :=
  List.filterMap_append _ _ _

theorem publishedOf_traceToConsent (s0 : BackgroundCheckState V F S M) :
    publishedOf (traceToConsent s0) = [BackgroundCheckStatus.PendingAccept] := rfl

theorem publishedOf_traceToValidation (s0 s1 : BackgroundCheckState V F S M)
    (c : AcceptSubmission) :
    publishedOf (traceToValidation s0 s1 c) =
      [BackgroundCheckStatus.PendingAccept, BackgroundCheckStatus.Running] := rfl

theorem publishedOf_traceOfStarts (s2 : BackgroundCheckState V F S M) (c : AcceptSubmission) :
    publishedOf (traceOfStarts s2 c) = [] := rfl

theorem publishedOf_single (s : BackgroundCheckStatus) (st : BackgroundCheckState V F S M) :
    publishedOf [(Event.published s, st)] = [s] := rfl

theorem startedOf_traceToConsent (s0 : BackgroundCheckState V F S M) :
    startedOf (traceToConsent s0) = [Child.Accept] := rfl

theorem startedOf_traceToValidation (s0 s1 : BackgroundCheckState V F S M)
    (c : AcceptSubmission) :
    startedOf (traceToValidation s0 s1 c) = [Child.Accept, Child.ValidateSSN (ssnInputOf c)] :=
  rfl

theorem startedOf_traceOfStarts (s2 : BackgroundCheckState V F S M) (c : AcceptSubmission) :
    startedOf (traceOfStarts s2 c) =
      [Child.FederalCriminalSearch ⟨c.CandidateDetails.FullName, c.CandidateDetails.Address⟩,
        Child.StateCriminalSearch ⟨c.CandidateDetails.FullName, c.CandidateDetails.Address⟩,
        Child.MotorVehicleIncidentSearch
          ⟨c.CandidateDetails.FullName, c.CandidateDetails.Address⟩] := rfl

theorem startedOf_single (s : BackgroundCheckStatus) (st : BackgroundCheckState V F S M) :
    startedOf [(Event.published s, st)] = [] := rfl

theorem consumedOf_traceToConsent (s0 : BackgroundCheckState V F S M) :
    consumedOf (traceToConsent s0) = [] := rfl

theorem consumedOf_traceToValidation (s0 s1 : BackgroundCheckState V F S M)
    (c : AcceptSubmission) : consumedOf (traceToValidation s0 s1 c) = [] := rfl

theorem consumedOf_traceOfStarts (s2 : BackgroundCheckState V F S M) (c : AcceptSubmission) :
    consumedOf (traceOfStarts s2 c) = [] := rfl

theorem consumedOf_single (s : BackgroundCheckStatus) (st : BackgroundCheckState V F S M) :
    consumedOf [(Event.published s, st)] = [] := rfl

/-- C1 (amended): the statuses published in any run never go back to an earlier status,
and in a run that returns without error they are exactly `PendingAccept, Declined`
(consent declined), or `PendingAccept, Running` (validation invalid or tier other than
`full`: the run stops without publishing `Completed`), or
`PendingAccept, Running, Completed` (full investigation). -/
theorem status_sequences [Inhabited V] [Inhabited F] [Inhabited S] [Inhabited M]
    (host : Host V F S M) (z : Option BackgroundCheckStatus)
    (input : BackgroundCheckWorkflowInput) :
    List.Chain' (fun a b => BackgroundCheckStatus.rank a < BackgroundCheckStatus.rank b)
      (publishedOf (BackgroundCheck host z input).trace) ∧
    ((BackgroundCheck host z input).result = Outcome.returned none →
      (publishedOf (BackgroundCheck host z input).trace =
          [BackgroundCheckStatus.PendingAccept, BackgroundCheckStatus.Declined] ∧
        ∃ c, host.Accept = Except.ok c ∧ c.Accepted = false) ∨
      (publishedOf (BackgroundCheck host z input).trace =
          [BackgroundCheckStatus.PendingAccept, BackgroundCheckStatus.Running] ∧
        ∃ c v, host.Accept = Except.ok c ∧ c.Accepted = true ∧
          host.ValidateSSN (ssnInputOf c) = Except.ok v ∧
          (v.Valid = false ∨ input.Package ≠ "full")) ∨
      (publishedOf (BackgroundCheck host z input).trace =
          [BackgroundCheckStatus.PendingAccept, BackgroundCheckStatus.Running,
            BackgroundCheckStatus.Completed] ∧
        ∃ c v, host.Accept = Except.ok c ∧ c.Accepted = true ∧
          host.ValidateSSN (ssnInputOf c) = Except.ok v ∧ v.Valid = true ∧
          input.Package = "full")) := by
  rcases run_path host z input with ⟨e, hq, hr⟩ | ⟨e, hq, hp, hr⟩ | ⟨e, hq, hp, ha, hr⟩ |
    ⟨c, e, hq, hp, ha, hacc, hd, hr⟩ | ⟨c, hq, hp, ha, hacc, hd, hr⟩ |
    ⟨c, e, hq, hp, ha, hacc, hd, hr⟩ | ⟨c, e, hq, hp, ha, hacc, hd, hv, hr⟩ |
    ⟨c, v, hq, hp, ha, hacc, hd, hv, hvalid, hr⟩ |
    ⟨c, v, hq, hp, ha, hacc, hd, hv, hvalid, ht, hr⟩ |
    ⟨c, v, e, l, hq, hp, ha, hacc, hd, hv, hvalid, ht, hl, hc, hr⟩ |
    ⟨c, v, l, hq, hp, ha, hacc, hd, hv, hvalid, ht, hl, hc, hr⟩
  · simp [hr, publishedOf]
  · simp [hr, publishedOf]
  · simp [hr, publishedOf_traceToConsent]
  · simp [hr, publishedOf_traceToConsent]
  · simp [hr, publishedOf_append, publishedOf_traceToConsent, publishedOf_single,
      BackgroundCheckStatus.rank, ha, hacc]
  · simp [hr, publishedOf_traceToConsent]
  · simp [hr, publishedOf_traceToValidation, BackgroundCheckStatus.rank]
  · simp [hr, publishedOf_traceToValidation, BackgroundCheckStatus.rank, ha, hacc, hv, hvalid]
  · simp [hr, publishedOf_traceToValidation, BackgroundCheckStatus.rank, ha, hacc, hv, ht]
  · simp [hr, publishedOf_append, publishedOf_traceToValidation, publishedOf_traceOfStarts,
      hl.2.1, BackgroundCheckStatus.rank]
  · simp [hr, publishedOf_append, publishedOf_traceToValidation, publishedOf_traceOfStarts,
      publishedOf_single, hl.2.1, BackgroundCheckStatus.rank, ha, hacc, hv, hvalid, ht]

/-- C1 (witness): on the all-success host with tier `full` the run returns without error
and publishes `PendingAccept, Running, Completed`. -/
theorem status_sequences_witness :
    (BackgroundCheck sampleHost none fullInput).result = Outcome.returned none ∧
    ((publishedOf (BackgroundCheck sampleHost none fullInput).trace =
          [BackgroundCheckStatus.PendingAccept, BackgroundCheckStatus.Declined] ∧
        ∃ c, sampleHost.Accept = Except.ok c ∧ c.Accepted = false) ∨
      (publishedOf (BackgroundCheck sampleHost none fullInput).trace =
          [BackgroundCheckStatus.PendingAccept, BackgroundCheckStatus.Running] ∧
        ∃ c v, sampleHost.Accept = Except.ok c ∧ c.Accepted = true ∧
          sampleHost.ValidateSSN (ssnInputOf c) = Except.ok v ∧
          (v.Valid = false ∨ fullInput.Package ≠ "full")) ∨
      (publishedOf (BackgroundCheck sampleHost none fullInput).trace =
          [BackgroundCheckStatus.PendingAccept, BackgroundCheckStatus.Running,
            BackgroundCheckStatus.Completed] ∧
        ∃ c v, sampleHost.Accept = Except.ok c ∧ c.Accepted = true ∧
          sampleHost.ValidateSSN (ssnInputOf c) = Except.ok v ∧ v.Valid = true ∧
          fullInput.Package = "full")) :=
  ⟨by decide, (status_sequences sampleHost none fullInput).2 (by decide)⟩

/-- C1 (counterexample): with consent accepted, validation valid and the tier `basic`,
the run returns without error having published `PendingAccept, Running` only, which is
neither `PendingAccept, Declined` nor `PendingAccept, Running, Completed`. -/
theorem status_sequences_counterexample :
    (BackgroundCheck sampleHost none basicInput).result = Outcome.returned none ∧
    publishedOf (BackgroundCheck sampleHost none basicInput).trace =
      [BackgroundCheckStatus.PendingAccept, BackgroundCheckStatus.Running] ∧
    publishedOf (BackgroundCheck sampleHost none basicInput).trace ≠
      [BackgroundCheckStatus.PendingAccept, BackgroundCheckStatus.Declined] ∧
    publishedOf (BackgroundCheck sampleHost none basicInput).trace ≠
      [BackgroundCheckStatus.PendingAccept, BackgroundCheckStatus.Running,
        BackgroundCheckStatus.Completed] := by
  decide

/-- C2: for tier `full`, consent accepted and validation run and valid, and for every
outcome of the three investigative checks and every completion order, the three checks
are each consumed once, the validation slot holds the validation result, and each
investigative slot holds the result of its check when the check succeeded and its
initial (zero) value when the check failed. No error of an investigative check reaches
the return value: the run returns what the final `updateStatus` of line 139 returns,
which is nil whenever the host accepts the constant one-key attribute map of lines
12-19, and then `Completed` is the last published status. -/
theorem full_investigation_completes [Inhabited V] [Inhabited F] [Inhabited S] [Inhabited M]
    (host : Host V F S M) (z : Option BackgroundCheckStatus)
    (input : BackgroundCheckWorkflowInput) (c : AcceptSubmission)
    (v : ValidateSSNWorkflowResult V)
    (ha : host.Accept = Except.ok c) (hacc : c.Accepted = true)
    (hvs : Child.ValidateSSN (ssnInputOf c) ∈ startedOf (BackgroundCheck host z input).trace)
    (hv : host.ValidateSSN (ssnInputOf c) = Except.ok v) (hvalid : v.Valid = true)
    (ht : input.Package = "full") :
    (BackgroundCheck host z input).result =
      Outcome.returned (host.UpsertSearchAttributes BackgroundCheckStatus.Completed) ∧
    (host.UpsertSearchAttributes BackgroundCheckStatus.Completed = none →
      (BackgroundCheck host z input).result = Outcome.returned none ∧
      (publishedOf (BackgroundCheck host z input).trace).getLast? =
        some BackgroundCheckStatus.Completed) ∧
    (consumedOf (BackgroundCheck host z input).trace).Perm
      [Check.federalCriminalSearch, Check.stateCriminalSearch,
        Check.motorVehicleIncidentSearch] ∧
    (BackgroundCheck host z input).status.Validate = v ∧
    (∀ r, host.FederalCriminalSearch
        ⟨c.CandidateDetails.FullName, c.CandidateDetails.Address⟩ = Except.ok r →
      (BackgroundCheck host z input).status.FederalCriminalSearch = r) ∧
    (∀ e, host.FederalCriminalSearch
        ⟨c.CandidateDetails.FullName, c.CandidateDetails.Address⟩ = Except.error e →
      (BackgroundCheck host z input).status.FederalCriminalSearch = default) ∧
    (∀ r, host.StateCriminalSearch
        ⟨c.CandidateDetails.FullName, c.CandidateDetails.Address⟩ = Except.ok r →
      (BackgroundCheck host z input).status.StateCriminalSearch = r) ∧
    (∀ e, host.StateCriminalSearch
        ⟨c.CandidateDetails.FullName, c.CandidateDetails.Address⟩ = Except.error e →
      (BackgroundCheck host z input).status.StateCriminalSearch = default) ∧
    (∀ r, host.MotorVehicleIncidentSearch
        ⟨c.CandidateDetails.FullName, c.CandidateDetails.Address⟩ = Except.ok r →
      (BackgroundCheck host z input).status.MotorVehicleIncidentSearch = r) ∧
    (∀ e, host.MotorVehicleIncidentSearch
        ⟨c.CandidateDetails.FullName, c.CandidateDetails.Address⟩ = Except.error e →
      (BackgroundCheck host z input).status.MotorVehicleIncidentSearch = default) := by
  have _hacc := hacc
  rcases run_path host z input with ⟨e, hq, hr⟩ | ⟨e, hq, hp, hr⟩ | ⟨e, hq, hp, ha1, hr⟩ |
    ⟨c1, e, hq, hp, ha1, hacc1, hd, hr⟩ | ⟨c1, hq, hp, ha1, hacc1, hd, hr⟩ |
    ⟨c1, e, hq, hp, ha1, hacc1, hd, hr⟩ | ⟨c1, e, hq, hp, ha1, hacc1, hd, hv1, hr⟩ |
    ⟨c1, v1, hq, hp, ha1, hacc1, hd, hv1, hvalid1, hr⟩ |
    ⟨c1, v1, hq, hp, ha1, hacc1, hd, hv1, hvalid1, ht1, hr⟩ |
    ⟨c1, v1, e, l, hq, hp, ha1, hacc1, hd, hv1, hvalid1, ht1, hl, hc1, hr⟩ |
    ⟨c1, v1, l, hq, hp, ha1, hacc1, hd, hv1, hvalid1, ht1, hl, hc1, hr⟩
  · simp [hr, startedOf] at hvs
  · simp [hr, startedOf] at hvs
  · simp [hr, startedOf_traceToConsent] at hvs
  · simp [hr, startedOf_traceToConsent] at hvs
  · simp [hr, startedOf_append, startedOf_traceToConsent, startedOf_single] at hvs
  · simp [hr, startedOf_traceToConsent] at hvs
  · obtain rfl : c = c1 := by simpa [ha] using ha1
    simp [hv] at hv1
  · obtain rfl : c = c1 := by simpa [ha] using ha1
    obtain rfl : v = v1 := by simpa [hv] using hv1
    simp [hvalid] at hvalid1
  · exact absurd ht ht1
  · obtain rfl : c = c1 := by simpa [ha] using ha1
    obtain rfl : v = v1 := by simpa [hv] using hv1
    refine ⟨by simp [hr, hc1], by simp [hc1], ?_,
      by simp [hr, investigated, stateAfterValidation], ?_, ?_, ?_, ?_, ?_, ?_⟩
    · simp only [hr, consumedOf_append, consumedOf_traceToValidation,
        consumedOf_traceOfStarts, hl.2.2.2.1, List.nil_append]
      exact completionOrder_perm _ _
    all_goals
      intro r h
      simp [hr, investigated, slotAfter, h, stateAfterValidation, stateAfterConsent,
        initialState]
  · obtain rfl : c = c1 := by simpa [ha] using ha1
    obtain rfl : v = v1 := by simpa [hv] using hv1
    refine ⟨by simp [hr, hc1], ?_, ?_,
      by simp [hr, investigated, stateAfterValidation], ?_, ?_, ?_, ?_, ?_, ?_⟩
    · intro _
      exact ⟨by simp [hr], by simp [hr, publishedOf_append, publishedOf_single]⟩
    · simp only [hr, consumedOf_append, consumedOf_traceToValidation,
        consumedOf_traceOfStarts, consumedOf_single, hl.2.2.2.1, List.nil_append,
        List.append_nil]
      exact completionOrder_perm _ _
    all_goals
      intro r h
      simp [hr, investigated, slotAfter, h, stateAfterValidation, stateAfterConsent,
        initialState]

/-- C2 (witness): on a host where only the state criminal search fails, the run returns
without error with `Completed` as last published status, the federal and motor-vehicle
slots hold their results and the state slot is left at its zero value. -/
theorem full_investigation_completes_witness :
    ((BackgroundCheck stateFailingHost none fullInput).result = Outcome.returned none ∧
      (publishedOf (BackgroundCheck stateFailingHost none fullInput).trace).getLast? =
        some BackgroundCheckStatus.Completed) ∧
    (BackgroundCheck stateFailingHost none fullInput).status.Validate = ⟨true, 1⟩ ∧
    (BackgroundCheck stateFailingHost none fullInput).status.FederalCriminalSearch =
      "federal: clear" ∧
    (BackgroundCheck stateFailingHost none fullInput).status.StateCriminalSearch = "" ∧
    (BackgroundCheck stateFailingHost none fullInput).status.MotorVehicleIncidentSearch =
      "motor: clear" :=
  have h := full_investigation_completes stateFailingHost none fullInput
    ⟨true, sampleDetails⟩ ⟨true, 1⟩ rfl rfl (by decide) rfl rfl rfl
  ⟨h.2.1 rfl, h.2.2.2.1, h.2.2.2.2.1 _ rfl, h.2.2.2.2.2.2.2.1 _ rfl,
    h.2.2.2.2.2.2.2.2.1 _ rfl⟩

theorem getLast_traceToValidation (s0 s1 : BackgroundCheckState V F S M)
    (c : AcceptSubmission) :
    ((traceToValidation s0 s1 c).map Prod.fst).getLast? = some Event.suspended := rfl

/-- C3: the validation child workflow is started only if the consent child workflow
returned `Accepted = true`; the investigative child workflows are started if and only if
consent was accepted, validation returned `Valid = true` and the tier is `full`, and then
all three are started, otherwise none. Hence with `Accepted = false` no validation or
investigative check is started, with validation invalid no investigative check is
started, and with a tier other than `full` no investigative check is started, the three
investigative slots keep their zero value, and a run in which validation returned ends
there: the wait on validation is the last event, validation the last child started. -/
theorem subcheck_gating [Inhabited V] [Inhabited F] [Inhabited S] [Inhabited M]
    (host : Host V F S M) (z : Option BackgroundCheckStatus)
    (input : BackgroundCheckWorkflowInput) :
    (validationStarted (BackgroundCheck host z input) ≠ [] →
      ConsentAccepted host (BackgroundCheck host z input)) ∧
    (investigativeStarted (BackgroundCheck host z input) ≠ [] ↔
      ConsentAccepted host (BackgroundCheck host z input) ∧
        ValidationValid host (BackgroundCheck host z input) ∧ input.Package = "full") ∧
    (investigativeStarted (BackgroundCheck host z input) = [] ∨
      ∃ fi si mi, investigativeStarted (BackgroundCheck host z input) =
        [Child.FederalCriminalSearch fi, Child.StateCriminalSearch si,
          Child.MotorVehicleIncidentSearch mi]) ∧
    (∀ c, host.Accept = Except.ok c → c.Accepted = false →
      validationStarted (BackgroundCheck host z input) = [] ∧
        investigativeStarted (BackgroundCheck host z input) = []) ∧
    (∀ i v, Child.ValidateSSN i ∈ startedOf (BackgroundCheck host z input).trace →
      host.ValidateSSN i = Except.ok v → v.Valid = false →
      investigativeStarted (BackgroundCheck host z input) = []) ∧
    (input.Package ≠ "full" →
      investigativeStarted (BackgroundCheck host z input) = [] ∧
      (BackgroundCheck host z input).status.FederalCriminalSearch = default ∧
      (BackgroundCheck host z input).status.StateCriminalSearch = default ∧
      (BackgroundCheck host z input).status.MotorVehicleIncidentSearch = default ∧
      ∀ i v, Child.ValidateSSN i ∈ startedOf (BackgroundCheck host z input).trace →
        host.ValidateSSN i = Except.ok v →
        (BackgroundCheck host z input).result = Outcome.returned none ∧
        (BackgroundCheck host z input).status.Validate = v ∧
        ((BackgroundCheck host z input).trace.map Prod.fst).getLast? = some Event.suspended ∧
        (startedOf (BackgroundCheck host z input).trace).getLast? =
          some (Child.ValidateSSN i)) := by
  rcases run_path host z input with ⟨e, hq, hr⟩ | ⟨e, hq, hp, hr⟩ | ⟨e, hq, hp, ha, hr⟩ |
    ⟨c, e, hq, hp, ha, hacc, hd, hr⟩ | ⟨c, hq, hp, ha, hacc, hd, hr⟩ |
    ⟨c, e, hq, hp, ha, hacc, hd, hr⟩ | ⟨c, e, hq, hp, ha, hacc, hd, hv, hr⟩ |
    ⟨c, v, hq, hp, ha, hacc, hd, hv, hvalid, hr⟩ |
    ⟨c, v, hq, hp, ha, hacc, hd, hv, hvalid, ht, hr⟩ |
    ⟨c, v, e, l, hq, hp, ha, hacc, hd, hv, hvalid, ht, hl, hc, hr⟩ |
    ⟨c, v, l, hq, hp, ha, hacc, hd, hv, hvalid, ht, hl, hc, hr⟩
  · simp [hr, validationStarted, investigativeStarted, ConsentAccepted, ValidationValid,
      startedOf, initialState]
  · simp [hr, validationStarted, investigativeStarted, ConsentAccepted, ValidationValid,
      startedOf, initialState]
  · simp [hr, validationStarted, investigativeStarted, ConsentAccepted, ValidationValid,
      startedOf_traceToConsent, initialState, ha, Child.validation, Child.investigative]
  · simp [hr, validationStarted, investigativeStarted, ConsentAccepted, ValidationValid,
      startedOf_traceToConsent, initialState, stateAfterConsent, ha, hacc, Child.validation,
      Child.investigative]
  · simp [hr, validationStarted, investigativeStarted, ConsentAccepted, ValidationValid,
      startedOf_append, startedOf_single,
      startedOf_traceToConsent, initialState, stateAfterConsent, ha, hacc, Child.validation,
      Child.investigative]
  · simp [hr, validationStarted, investigativeStarted, ConsentAccepted, ValidationValid,
      startedOf_traceToConsent, initialState, stateAfterConsent, ha, hacc, Child.validation,
      Child.investigative]
  · refine ⟨?_, ?_, ?_, ?_, ?_, ?_⟩
    · simp [hr, validationStarted, ConsentAccepted, startedOf_traceToValidation, ha, hacc]
    · simp [hr, investigativeStarted, ConsentAccepted, ValidationValid,
        startedOf_traceToValidation, ha, hacc, hv, Child.investigative]
    · simp [hr, investigativeStarted, startedOf_traceToValidation, Child.investigative]
    · simp [ha, hacc]
    · simp [hr, investigativeStarted, startedOf_traceToValidation, Child.investigative]
    · intro _
      refine ⟨by simp [hr, investigativeStarted, startedOf_traceToValidation,
        Child.investigative], by simp [hr, stateAfterConsent, initialState],
        by simp [hr, stateAfterConsent, initialState],
        by simp [hr, stateAfterConsent, initialState], ?_⟩
      intro i v1 hi hv1
      obtain rfl : i = ssnInputOf c := by
        simpa [hr, startedOf_traceToValidation] using hi
      rw [hv] at hv1
      simp at hv1
  · refine ⟨?_, ?_, ?_, ?_, ?_, ?_⟩
    · simp [hr, validationStarted, ConsentAccepted, startedOf_traceToValidation, ha, hacc]
    · simp [hr, investigativeStarted, ConsentAccepted, ValidationValid,
        startedOf_traceToValidation, ha, hacc, hv, hvalid, Child.investigative]
    · simp [hr, investigativeStarted, startedOf_traceToValidation, Child.investigative]
    · simp [ha, hacc]
    · simp [hr, investigativeStarted, startedOf_traceToValidation, Child.investigative]
    · intro _
      refine ⟨by simp [hr, investigativeStarted, startedOf_traceToValidation,
        Child.investigative], by simp [hr, stateAfterValidation, stateAfterConsent, initialState],
        by simp [hr, stateAfterValidation, stateAfterConsent, initialState],
        by simp [hr, stateAfterValidation, stateAfterConsent, initialState], ?_⟩
      intro i v1 hi hv1
      obtain rfl : i = ssnInputOf c := by
        simpa [hr, startedOf_traceToValidation] using hi
      rw [hv] at hv1
      obtain rfl : v = v1 := by simpa using hv1
      refine ⟨by simp [hr], by simp [hr, stateAfterValidation], ?_,
        by simp [hr, startedOf_traceToValidation]⟩
      rw [hr]; exact getLast_traceToValidation _ _ _
  · refine ⟨?_, ?_, ?_, ?_, ?_, ?_⟩
    · simp [hr, validationStarted, ConsentAccepted, startedOf_traceToValidation, ha, hacc]
    · simp [hr, investigativeStarted, ConsentAccepted, ValidationValid,
        startedOf_traceToValidation, ha, hacc, hv, hvalid, ht, Child.investigative]
    · simp [hr, investigativeStarted, startedOf_traceToValidation, Child.investigative]
    · simp [ha, hacc]
    · simp [hr, investigativeStarted, startedOf_traceToValidation, Child.investigative]
    · intro _
      refine ⟨by simp [hr, investigativeStarted, startedOf_traceToValidation,
        Child.investigative], by simp [hr, stateAfterValidation, stateAfterConsent, initialState],
        by simp [hr, stateAfterValidation, stateAfterConsent, initialState],
        by simp [hr, stateAfterValidation, stateAfterConsent, initialState], ?_⟩
      intro i v1 hi hv1
      obtain rfl : i = ssnInputOf c := by
        simpa [hr, startedOf_traceToValidation] using hi
      rw [hv] at hv1
      obtain rfl : v = v1 := by simpa using hv1
      refine ⟨by simp [hr], by simp [hr, stateAfterValidation], ?_,
        by simp [hr, startedOf_traceToValidation]⟩
      rw [hr]; exact getLast_traceToValidation _ _ _
  · simp [hr, validationStarted, investigativeStarted, ConsentAccepted, ValidationValid,
      startedOf_append, startedOf_traceToValidation, startedOf_traceOfStarts, hl.2.2.1,
      initialState, stateAfterConsent,
      stateAfterValidation, ha, hacc, hv, hvalid, ht, Child.validation, Child.investigative]
    intro i v1 hi hv1
    subst hi
    rw [hv] at hv1
    obtain rfl : v = v1 := by simpa using hv1
    exact hvalid
  · simp [hr, validationStarted, investigativeStarted, ConsentAccepted, ValidationValid,
      startedOf_append, startedOf_traceToValidation, startedOf_traceOfStarts, startedOf_single,
      hl.2.2.1, initialState, stateAfterConsent,
      stateAfterValidation, ha, hacc, hv, hvalid, ht, Child.validation, Child.investigative]
    intro i v1 hi hv1
    subst hi
    rw [hv] at hv1
    obtain rfl : v = v1 := by simpa using hv1
    exact hvalid

/-- C3 (witness): on the all-success host with tier `full` the investigative checks are
started and the three conditions hold; with consent declined nothing but the consent is
started; with validation invalid and with tier `basic` no investigative check starts. -/
theorem subcheck_gating_witness :
    (ConsentAccepted sampleHost (BackgroundCheck sampleHost none fullInput) ∧
      ValidationValid sampleHost (BackgroundCheck sampleHost none fullInput) ∧
      fullInput.Package = "full") ∧
    (validationStarted (BackgroundCheck decliningHost none fullInput) = [] ∧
      investigativeStarted (BackgroundCheck decliningHost none fullInput) = []) ∧
    investigativeStarted (BackgroundCheck invalidHost none fullInput) = [] ∧
    investigativeStarted (BackgroundCheck sampleHost none basicInput) = [] :=
  ⟨(subcheck_gating sampleHost none fullInput).2.1.1 (by decide),
    (subcheck_gating decliningHost none fullInput).2.2.2.1 ⟨false, sampleDetails⟩ rfl rfl,
    (subcheck_gating invalidHost none fullInput).2.2.2.2.1 (ssnInputOf ⟨true, sampleDetails⟩)
      ⟨false, 0⟩ (by decide) rfl rfl,
    ((subcheck_gating sampleHost none basicInput).2.2.2.2.2 (by decide)).1⟩

theorem investigate_status_result (host : Host V F S M) (c : CandidateDetails)
    (m : Machine V F S M) :
    (investigate host c m).status = investigated host c m.status ∧
    (investigate host c m).result =
      Outcome.returned (host.UpsertSearchAttributes BackgroundCheckStatus.Completed) := by
  obtain ⟨l, -, h⟩ := investigate_spec host c m
  rw [h]
  rcases host.UpsertSearchAttributes BackgroundCheckStatus.Completed with _ | e <;> simp

theorem validate_congr (host host1 : Host V F S M) (input : BackgroundCheckWorkflowInput)
    (c : CandidateDetails) (m m1 : Machine V F S M)
    (hu : host1.UpsertSearchAttributes = host.UpsertSearchAttributes)
    (hv : host1.ValidateSSN = host.ValidateSSN) :
    (validate host1 input c m1).result = (validate host input c m).result ∧
    (host1.FederalCriminalSearch = host.FederalCriminalSearch →
      host1.StateCriminalSearch = host.StateCriminalSearch →
      host1.MotorVehicleIncidentSearch = host.MotorVehicleIncidentSearch →
      m1.status = m.status →
      (validate host1 input c m1).status = (validate host input c m).status) := by
  simp only [validate, hv]
  rcases host.ValidateSSN ⟨c.FullName, c.Address, c.SSN⟩ with e | v
  · simp [Machine.finish, Machine.emit]
  · rcases hvalid : v.Valid with _ | _
    · simp [Machine.finish, Machine.emit, hvalid]
      intro _ _ _ h; simp [h]
    · by_cases ht : input.Package = "full"
      · simp only [hvalid, ht, Machine.emit, Bool.not_true, Bool.false_eq_true, ↓reduceIte,
          bne_self_eq_false]
        refine ⟨?_, ?_⟩
        · rw [(investigate_status_result _ _ _).2, (investigate_status_result _ _ _).2, hu]
        · intro hf hs hm h
          rw [(investigate_status_result _ _ _).1, (investigate_status_result _ _ _).1]
          simp [investigated, hf, hs, hm, h]
      · simp [Machine.finish, Machine.emit, hvalid, ht]
        intro _ _ _ h; simp [h]

theorem run_congr [Inhabited V] [Inhabited F] [Inhabited S] [Inhabited M]
    (host host1 : Host V F S M) (z : Option BackgroundCheckStatus)
    (input : BackgroundCheckWorkflowInput)
    (hq : host1.SetQueryHandler = host.SetQueryHandler)
    (hu : host1.UpsertSearchAttributes = host.UpsertSearchAttributes)
    (ha : host1.Accept = host.Accept)
    (hv : host1.ValidateSSN = host.ValidateSSN) :
    (BackgroundCheck host1 z input).result = (BackgroundCheck host z input).result ∧
    (host1.FederalCriminalSearch = host.FederalCriminalSearch →
      host1.StateCriminalSearch = host.StateCriminalSearch →
      host1.MotorVehicleIncidentSearch = host.MotorVehicleIncidentSearch →
      (BackgroundCheck host1 z input).status = (BackgroundCheck host z input).status) := by
  simp only [BackgroundCheck, updateStatus, waitForAccept, hq, hu, ha]
  rcases host.SetQueryHandler with _ | e
  swap
  · simp [Machine.finish]
  rcases host.UpsertSearchAttributes BackgroundCheckStatus.PendingAccept with _ | e
  swap
  · simp [Machine.finish, Machine.emit]
  rcases host.Accept with e | c
  · simp [Machine.finish, Machine.emit]
  rcases hacc : c.Accepted with _ | _
  · rcases host.UpsertSearchAttributes BackgroundCheckStatus.Declined with _ | e <;>
      simp [Machine.finish, Machine.emit, hacc]
  rcases host.UpsertSearchAttributes BackgroundCheckStatus.Running with _ | e
  swap
  · simp [Machine.finish, Machine.emit, hacc]
  simp only [hacc, Bool.not_true, Bool.false_eq_true, ↓reduceIte]
  exact ⟨(validate_congr host host1 input _ _ _ hu hv).1,
    fun hf hs hm => (validate_congr host host1 input _ _ _ hu hv).2 hf hs hm rfl⟩

/-- C4: if the consent child workflow, once started, returns an error, the run returns
that same error, starts no other child workflow and never publishes `Completed`; the
same holds for the validation child workflow (only consent and validation were started).
Conversely the return value does not depend on the outcomes of the three investigative
checks nor on their completion order, and once they are started the return value is
whatever the publication of `Completed` returns. -/
theorem fatal_errors [Inhabited V] [Inhabited F] [Inhabited S] [Inhabited M]
    (host : Host V F S M) (z : Option BackgroundCheckStatus)
    (input : BackgroundCheckWorkflowInput) :
    (∀ e, Child.Accept ∈ startedOf (BackgroundCheck host z input).trace →
      host.Accept = Except.error e →
      (BackgroundCheck host z input).result = Outcome.returned (some e) ∧
      startedOf (BackgroundCheck host z input).trace = [Child.Accept] ∧
      BackgroundCheckStatus.Completed ∉ publishedOf (BackgroundCheck host z input).trace) ∧
    (∀ i e, Child.ValidateSSN i ∈ startedOf (BackgroundCheck host z input).trace →
      host.ValidateSSN i = Except.error e →
      (BackgroundCheck host z input).result = Outcome.returned (some e) ∧
      startedOf (BackgroundCheck host z input).trace = [Child.Accept, Child.ValidateSSN i] ∧
      BackgroundCheckStatus.Completed ∉ publishedOf (BackgroundCheck host z input).trace) ∧
    (∀ (f : FederalCriminalSearchWorkflowInput → Except GoError F)
      (s : StateCriminalSearchWorkflowInput → Except GoError S)
      (m : MotorVehicleIncidentSearchWorkflowInput → Except GoError M) (r : Nat → Nat),
      (BackgroundCheck
          { host with
            FederalCriminalSearch := f
            StateCriminalSearch := s
            MotorVehicleIncidentSearch := m
            ready := r } z input).result =
        (BackgroundCheck host z input).result) ∧
    (investigativeStarted (BackgroundCheck host z input) ≠ [] →
      (BackgroundCheck host z input).result =
        Outcome.returned (host.UpsertSearchAttributes BackgroundCheckStatus.Completed)) := by
  refine ⟨?_, ?_, fun f s m r => (run_congr host ⟨host.SetQueryHandler,
    host.UpsertSearchAttributes, host.Accept, host.ValidateSSN, f, s, m, r⟩ z input
    rfl rfl rfl rfl).1, ?_⟩
  all_goals
    rcases run_path host z input with ⟨e, hq, hr⟩ | ⟨e, hq, hp, hr⟩ | ⟨e, hq, hp, ha, hr⟩ |
      ⟨c, e, hq, hp, ha, hacc, hd, hr⟩ | ⟨c, hq, hp, ha, hacc, hd, hr⟩ |
      ⟨c, e, hq, hp, ha, hacc, hd, hr⟩ | ⟨c, e, hq, hp, ha, hacc, hd, hv, hr⟩ |
      ⟨c, v, hq, hp, ha, hacc, hd, hv, hvalid, hr⟩ |
      ⟨c, v, hq, hp, ha, hacc, hd, hv, hvalid, ht, hr⟩ |
      ⟨c, v, e, l, hq, hp, ha, hacc, hd, hv, hvalid, ht, hl, hc, hr⟩ |
      ⟨c, v, l, hq, hp, ha, hacc, hd, hv, hvalid, ht, hl, hc, hr⟩
  · simp [hr, startedOf]
  · simp [hr, startedOf]
  · simp [hr, startedOf_traceToConsent, publishedOf_traceToConsent, ha]
  · simp [hr, startedOf_traceToConsent, publishedOf_traceToConsent, ha]
  · simp [hr, ha]
  · simp [hr, ha]
  · simp [hr, ha]
  · simp [hr, ha]
  · simp [hr, ha]
  · simp [hr, ha]
  · simp [hr, ha]
  · simp [hr, startedOf]
  · simp [hr, startedOf]
  · simp [hr, startedOf_traceToConsent]
  · simp [hr, startedOf_traceToConsent]
  · simp [hr, startedOf_append, startedOf_traceToConsent, startedOf_single]
  · simp [hr, startedOf_traceToConsent]
  · intro i e1 hi hv1
    obtain rfl : i = ssnInputOf c := by simpa [hr, startedOf_traceToValidation] using hi
    rw [hv] at hv1
    obtain rfl : e = e1 := by simpa using hv1
    simp [hr, startedOf_traceToValidation, publishedOf_traceToValidation]
  · intro i e1 hi hv1
    obtain rfl : i = ssnInputOf c := by simpa [hr, startedOf_traceToValidation] using hi
    simp [hv] at hv1
  · intro i e1 hi hv1
    obtain rfl : i = ssnInputOf c := by simpa [hr, startedOf_traceToValidation] using hi
    simp [hv] at hv1
  · intro i e1 hi hv1
    obtain rfl : i = ssnInputOf c := by
      simpa [hr, startedOf_append, startedOf_traceToValidation, startedOf_traceOfStarts,
        hl.2.2.1] using hi
    simp [hv] at hv1
  · intro i e1 hi hv1
    obtain rfl : i = ssnInputOf c := by
      simpa [hr, startedOf_append, startedOf_traceToValidation, startedOf_traceOfStarts,
        startedOf_single, hl.2.2.1] using hi
    simp [hv] at hv1
  · simp [hr, investigativeStarted, startedOf]
  · simp [hr, investigativeStarted, startedOf]
  · simp [hr, investigativeStarted, startedOf_traceToConsent, Child.investigative]
  · simp [hr, investigativeStarted, startedOf_traceToConsent, Child.investigative]
  · simp [hr, investigativeStarted, startedOf_append, startedOf_traceToConsent,
      startedOf_single, Child.investigative]
  · simp [hr, investigativeStarted, startedOf_traceToConsent, Child.investigative]
  · simp [hr, investigativeStarted, startedOf_traceToValidation, Child.investigative]
  · simp [hr, investigativeStarted, startedOf_traceToValidation, Child.investigative]
  · simp [hr, investigativeStarted, startedOf_traceToValidation, Child.investigative]
  · simp [hr, hc]
  · simp [hr, hc]

/-- C4 (witness): a failing consent and a failing validation are returned by the run,
and the failure of the state criminal search is not. -/
theorem fatal_errors_witness :
    ((BackgroundCheck consentFailingHost none fullInput).result =
        Outcome.returned (some "consent workflow failed") ∧
      startedOf (BackgroundCheck consentFailingHost none fullInput).trace = [Child.Accept] ∧
      BackgroundCheckStatus.Completed ∉
        publishedOf (BackgroundCheck consentFailingHost none fullInput).trace) ∧
    ((BackgroundCheck validationFailingHost none fullInput).result =
        Outcome.returned (some "ssn trace failed") ∧
      startedOf (BackgroundCheck validationFailingHost none fullInput).trace =
        [Child.Accept, Child.ValidateSSN (ssnInputOf ⟨true, sampleDetails⟩)] ∧
      BackgroundCheckStatus.Completed ∉
        publishedOf (BackgroundCheck validationFailingHost none fullInput).trace) ∧
    (BackgroundCheck stateFailingHost none fullInput).result = Outcome.returned none :=
  ⟨(fatal_errors consentFailingHost none fullInput).1 _ (by decide) rfl,
    (fatal_errors validationFailingHost none fullInput).2.1 _ _ (by decide) rfl,
    (fatal_errors stateFailingHost none fullInput).2.2.2 (by decide)⟩

/-- C5 (amended): when the consent child workflow returns a submission with
`Accepted = false`, no other child workflow is started, the run returns what the
publication of `Declined` returns, and publishes `PendingAccept, Declined` when that
succeeds. The state at termination is the initial state with the candidate details of the
submission copied in (line 61 copies them before `Accepted` is tested); the four result
slots keep their zero value. -/
theorem declined_frame [Inhabited V] [Inhabited F] [Inhabited S] [Inhabited M]
    (host : Host V F S M) (z : Option BackgroundCheckStatus)
    (input : BackgroundCheckWorkflowInput) (c : AcceptSubmission)
    (hs : Child.Accept ∈ startedOf (BackgroundCheck host z input).trace)
    (ha : host.Accept = Except.ok c) (hacc : c.Accepted = false) :
    (BackgroundCheck host z input).status =
      { (initialState z input : BackgroundCheckState V F S M) with
        CandidateDetails := c.CandidateDetails } ∧
    (BackgroundCheck host z input).status.Validate = { Valid := false, Rest := default } ∧
    (BackgroundCheck host z input).status.FederalCriminalSearch = default ∧
    (BackgroundCheck host z input).status.StateCriminalSearch = default ∧
    (BackgroundCheck host z input).status.MotorVehicleIncidentSearch = default ∧
    startedOf (BackgroundCheck host z input).trace = [Child.Accept] ∧
    (BackgroundCheck host z input).result =
      Outcome.returned (host.UpsertSearchAttributes BackgroundCheckStatus.Declined) ∧
    (host.UpsertSearchAttributes BackgroundCheckStatus.Declined = none →
      publishedOf (BackgroundCheck host z input).trace =
        [BackgroundCheckStatus.PendingAccept, BackgroundCheckStatus.Declined]) := by
  rcases run_path host z input with ⟨e, hq, hr⟩ | ⟨e, hq, hp, hr⟩ | ⟨e, hq, hp, ha1, hr⟩ |
    ⟨c1, e, hq, hp, ha1, hacc1, hd, hr⟩ | ⟨c1, hq, hp, ha1, hacc1, hd, hr⟩ |
    ⟨c1, e, hq, hp, ha1, hacc1, hd, hr⟩ | ⟨c1, e, hq, hp, ha1, hacc1, hd, hv, hr⟩ |
    ⟨c1, v, hq, hp, ha1, hacc1, hd, hv, hvalid, hr⟩ |
    ⟨c1, v, hq, hp, ha1, hacc1, hd, hv, hvalid, ht, hr⟩ |
    ⟨c1, v, e, l, hq, hp, ha1, hacc1, hd, hv, hvalid, ht, hl, hc, hr⟩ |
    ⟨c1, v, l, hq, hp, ha1, hacc1, hd, hv, hvalid, ht, hl, hc, hr⟩
  · simp [hr, startedOf] at hs
  · simp [hr, startedOf] at hs
  · simp [ha] at ha1
  · obtain rfl : c = c1 := by simpa [ha] using ha1
    simp [hr, stateAfterConsent, initialState, startedOf_traceToConsent, hd]
  · obtain rfl : c = c1 := by simpa [ha] using ha1
    simp [hr, stateAfterConsent, initialState, startedOf_append, startedOf_traceToConsent,
      startedOf_single, publishedOf_append, publishedOf_traceToConsent, publishedOf_single, hd]
  all_goals
    obtain rfl : c = c1 := by simpa [ha] using ha1
    simp [hacc] at hacc1

/-- C5 (witness): on the declining host the run starts only the consent and returns
without error after publishing `PendingAccept, Declined`. -/
theorem declined_frame_witness :
    startedOf (BackgroundCheck decliningHost none fullInput).trace = [Child.Accept] ∧
    (BackgroundCheck decliningHost none fullInput).result = Outcome.returned none ∧
    publishedOf (BackgroundCheck decliningHost none fullInput).trace =
      [BackgroundCheckStatus.PendingAccept, BackgroundCheckStatus.Declined] :=
  have h := declined_frame decliningHost none fullInput ⟨false, sampleDetails⟩ (by decide)
    rfl rfl
  ⟨h.2.2.2.2.2.1, h.2.2.2.2.2.2.1, h.2.2.2.2.2.2.2 rfl⟩

/-- C5 (counterexample): a declined submission that carries candidate details leaves
them in the state at termination, which therefore differs from the initial state; and
when the publication of `Declined` fails the declined run returns that error with
`PendingAccept` as only published status. -/
theorem declined_frame_counterexample :
    decliningHost.Accept = Except.ok ⟨false, sampleDetails⟩ ∧
    publishedOf (BackgroundCheck decliningHost none fullInput).trace =
      [BackgroundCheckStatus.PendingAccept, BackgroundCheckStatus.Declined] ∧
    (BackgroundCheck decliningHost none fullInput).result = Outcome.returned none ∧
    (BackgroundCheck decliningHost none fullInput).status.CandidateDetails = sampleDetails ∧
    (BackgroundCheck decliningHost none fullInput).status ≠ initialState none fullInput ∧
    decliningPublishFailingHost.Accept = Except.ok ⟨false, sampleDetails⟩ ∧
    (BackgroundCheck decliningPublishFailingHost none fullInput).result =
      Outcome.returned (some "search attributes unavailable") ∧
    publishedOf (BackgroundCheck decliningPublishFailingHost none fullInput).trace =
      [BackgroundCheckStatus.PendingAccept] := by
  refine ⟨rfl, ?_, ?_, ?_, ?_, rfl, ?_, ?_⟩ <;> decide

theorem mem_traceToConsent {s0 : BackgroundCheckState V F S M}
    {p : Event × BackgroundCheckState V F S M} (h : p ∈ traceToConsent s0) : p.2 = s0 := by
  simp only [traceToConsent, List.mem_cons, List.mem_singleton, List.not_mem_nil,
    or_false] at h
  rcases h with rfl | rfl | rfl | rfl <;> rfl

theorem mem_traceToValidation {s0 s1 : BackgroundCheckState V F S M} {c : AcceptSubmission}
    {p : Event × BackgroundCheckState V F S M} (h : p ∈ traceToValidation s0 s1 c) :
    p.2 = s0 ∨ p.2 = s1 := by
  simp only [traceToValidation, List.mem_append, List.mem_cons, List.mem_singleton,
    List.not_mem_nil, or_false] at h
  rcases h with h | rfl | rfl | rfl
  · exact Or.inl (mem_traceToConsent h)
  · exact Or.inr rfl
  · exact Or.inr rfl
  · exact Or.inr rfl

theorem mem_traceOfStarts {s2 : BackgroundCheckState V F S M} {c : AcceptSubmission}
    {p : Event × BackgroundCheckState V F S M} (h : p ∈ traceOfStarts s2 c) : p.2 = s2 := by
  simp only [traceOfStarts, List.mem_cons, List.mem_singleton, List.not_mem_nil,
    or_false] at h
  rcases h with rfl | rfl | rfl <;> rfl

/-- C6 (amended): the process never writes the status field of the state returned by the
query handler: at every point of every run, and at termination, that field still has the
zero value it got from the struct literal of line 36. The status most recently set is
carried by the search attribute written by `updateStatus` only, whose successive values
are `PendingAccept`, then `Running` or `Declined`, then `Completed`. -/
theorem query_status_untouched [Inhabited V] [Inhabited F] [Inhabited S] [Inhabited M]
    (host : Host V F S M) (z : Option BackgroundCheckStatus)
    (input : BackgroundCheckWorkflowInput) :
    (∀ p ∈ (BackgroundCheck host z input).trace, p.2.Status = z) ∧
    (BackgroundCheck host z input).status.Status = z ∧
    publishedOf (BackgroundCheck host z input).trace ∈
      [[], [BackgroundCheckStatus.PendingAccept],
        [BackgroundCheckStatus.PendingAccept, BackgroundCheckStatus.Declined],
        [BackgroundCheckStatus.PendingAccept, BackgroundCheckStatus.Running],
        [BackgroundCheckStatus.PendingAccept, BackgroundCheckStatus.Running,
          BackgroundCheckStatus.Completed]] := by
  refine ⟨?_, ?_, ?_⟩
  · intro p hm
    rcases run_path host z input with ⟨e, hq, hr⟩ | ⟨e, hq, hp, hr⟩ | ⟨e, hq, hp, ha, hr⟩ |
      ⟨c, e, hq, hp, ha, hacc, hd, hr⟩ | ⟨c, hq, hp, ha, hacc, hd, hr⟩ |
      ⟨c, e, hq, hp, ha, hacc, hd, hr⟩ | ⟨c, e, hq, hp, ha, hacc, hd, hv, hr⟩ |
      ⟨c, v, hq, hp, ha, hacc, hd, hv, hvalid, hr⟩ |
      ⟨c, v, hq, hp, ha, hacc, hd, hv, hvalid, ht, hr⟩ |
      ⟨c, v, e, l, hq, hp, ha, hacc, hd, hv, hvalid, ht, hl, hc, hr⟩ |
      ⟨c, v, l, hq, hp, ha, hacc, hd, hv, hvalid, ht, hl, hc, hr⟩
    · simp [hr] at hm
    · obtain rfl : p = (Event.queryHandlerSet, initialState z input) := by simpa [hr] using hm
      rfl
    · rw [hr] at hm; rw [mem_traceToConsent hm]; rfl
    · rw [hr] at hm; rw [mem_traceToConsent hm]; rfl
    · simp only [hr, List.mem_append, List.mem_singleton] at hm
      rcases hm with hm | rfl
      · rw [mem_traceToConsent hm]; rfl
      · rfl
    · rw [hr] at hm; rw [mem_traceToConsent hm]; rfl
    · rw [hr] at hm; rcases mem_traceToValidation hm with h | h <;> rw [h] <;> rfl
    · rw [hr] at hm; rcases mem_traceToValidation hm with h | h <;> rw [h] <;> rfl
    · rw [hr] at hm; rcases mem_traceToValidation hm with h | h <;> rw [h] <;> rfl
    · simp only [hr, List.mem_append] at hm
      rcases hm with (hm | hm) | hm
      · rcases mem_traceToValidation hm with h | h <;> rw [h] <;> rfl
      · rw [mem_traceOfStarts hm]; rfl
      · rw [← (hl.1 p hm).2.2.2.2]; rfl
    · simp only [hr, List.mem_append, List.mem_singleton] at hm
      rcases hm with ((hm | hm) | hm) | rfl
      · rcases mem_traceToValidation hm with h | h <;> rw [h] <;> rfl
      · rw [mem_traceOfStarts hm]; rfl
      · rw [← (hl.1 p hm).2.2.2.2]; rfl
      · rfl
  · rcases run_path host z input with ⟨e, hq, hr⟩ | ⟨e, hq, hp, hr⟩ | ⟨e, hq, hp, ha, hr⟩ |
      ⟨c, e, hq, hp, ha, hacc, hd, hr⟩ | ⟨c, hq, hp, ha, hacc, hd, hr⟩ |
      ⟨c, e, hq, hp, ha, hacc, hd, hr⟩ | ⟨c, e, hq, hp, ha, hacc, hd, hv, hr⟩ |
      ⟨c, v, hq, hp, ha, hacc, hd, hv, hvalid, hr⟩ |
      ⟨c, v, hq, hp, ha, hacc, hd, hv, hvalid, ht, hr⟩ |
      ⟨c, v, e, l, hq, hp, ha, hacc, hd, hv, hvalid, ht, hl, hc, hr⟩ |
      ⟨c, v, l, hq, hp, ha, hacc, hd, hv, hvalid, ht, hl, hc, hr⟩
    all_goals rw [hr]; rfl
  · rcases run_path host z input with ⟨e, hq, hr⟩ | ⟨e, hq, hp, hr⟩ | ⟨e, hq, hp, ha, hr⟩ |
      ⟨c, e, hq, hp, ha, hacc, hd, hr⟩ | ⟨c, hq, hp, ha, hacc, hd, hr⟩ |
      ⟨c, e, hq, hp, ha, hacc, hd, hr⟩ | ⟨c, e, hq, hp, ha, hacc, hd, hv, hr⟩ |
      ⟨c, v, hq, hp, ha, hacc, hd, hv, hvalid, hr⟩ |
      ⟨c, v, hq, hp, ha, hacc, hd, hv, hvalid, ht, hr⟩ |
      ⟨c, v, e, l, hq, hp, ha, hacc, hd, hv, hvalid, ht, hl, hc, hr⟩ |
      ⟨c, v, l, hq, hp, ha, hacc, hd, hv, hvalid, ht, hl, hc, hr⟩
    · simp [hr, publishedOf]
    · simp [hr, publishedOf]
    · simp [hr, publishedOf_traceToConsent]
    · simp [hr, publishedOf_traceToConsent]
    · simp [hr, publishedOf_append, publishedOf_single, publishedOf_traceToConsent]
    · simp [hr, publishedOf_traceToConsent]
    · simp [hr, publishedOf_traceToValidation]
    · simp [hr, publishedOf_traceToValidation]
    · simp [hr, publishedOf_traceToValidation]
    · simp [hr, publishedOf_append, publishedOf_traceToValidation, publishedOf_traceOfStarts,
        hl.2.1]
    · simp [hr, publishedOf_append, publishedOf_traceToValidation, publishedOf_traceOfStarts,
        publishedOf_single, hl.2.1]

/-- C6 (counterexample): on the all-success host with tier `basic` the query is served at
the wait for consent, after `PendingAccept` was published, and at the wait for
validation, after `Running` was published, and returns the same status field both times:
whatever the zero value of the field, the snapshot does not follow the published
status. -/
theorem query_status_counterexample :
    ¬ ∃ z, QueryTracksStatus none (BackgroundCheck sampleHost z basicInput).trace := by
  rintro ⟨z, h⟩
  have h1 : z = some BackgroundCheckStatus.PendingAccept ∧
      z = some BackgroundCheckStatus.Running := by
    simpa [BackgroundCheck, updateStatus, waitForAccept, validate, Machine.emit,
      Machine.finish, sampleHost, basicInput, QueryTracksStatus] using h
  rw [h1.1] at h1
  exact absurd h1.2 (by decide)

/-- C7: whenever the provider answers the request of `FederalCriminalSearch` with a
status code other than 200, the activity returns the zero result and an error whose
message is exactly the status text of the code, a colon and a blank, and the raw response
body; for the code 500 and the body `provider down` the message contains
`Internal Server Error: provider down`. For the code 200 the activity returns what
decoding the body gives, result and error. -/
theorem federal_search_status_error {I R : Type} [Inhabited R] (t : Transport I R) (input : I)
    (url body : String) (r : Response)
    (hparse : t.Parse "http://thirdparty:8082/federalcriminalsearch" = Except.ok url)
    (hmarshal : t.Marshal input = Except.ok body)
    (hreq : t.NewRequestWithContext "POST" url body = none)
    (hdo : t.Do ⟨"POST", url, "application/json", body⟩ = Except.ok r) :
    (r.StatusCode ≠ 200 →
      FederalCriminalSearch t input =
        (default, some (StatusText r.StatusCode ++ ": " ++ r.Body.data))) ∧
    (r.StatusCode = 500 → r.Body.data = "provider down" →
      (FederalCriminalSearch t input).1 = default ∧
      ∃ msg before after, (FederalCriminalSearch t input).2 = some msg ∧
        msg = before ++ "Internal Server Error: provider down" ++ after) ∧
    (r.StatusCode = 200 → FederalCriminalSearch t input = t.Decode r.Body default) := by
  have hreq1 : t.NewRequestWithContext MethodPost url body = none := hreq
  have hdo1 : t.Do ⟨MethodPost, url, "application/json", body⟩ = Except.ok r := hdo
  refine ⟨?_, ?_, ?_⟩
  · intro hne
    have hne1 : r.StatusCode ≠ StatusOK := hne
    simp [FederalCriminalSearch, hparse, hmarshal, hreq1, hdo1, hne1, ReadAll]
  · intro h500 hbody
    have hne1 : r.StatusCode ≠ StatusOK := by rw [h500]; decide
    have hrun : FederalCriminalSearch t input =
        (default, some (StatusText r.StatusCode ++ ": " ++ r.Body.data)) := by
      simp [FederalCriminalSearch, hparse, hmarshal, hreq1, hdo1, hne1, ReadAll]
    refine ⟨by rw [hrun], "Internal Server Error: provider down", "", "", ?_, by decide⟩
    rw [hrun, h500, hbody]
    exact congrArg some (by decide)
  · intro h200
    have h : r.StatusCode = StatusOK := h200
    simp [FederalCriminalSearch, hparse, hmarshal, hreq1, hdo1, h]

/-- C7 (witness): a provider answering 500 with the body `provider down` makes the
activity return the zero result and the error `Internal Server Error: provider down`. -/
theorem federal_search_status_error_witness :
    FederalCriminalSearch (respondingTransport 500 "provider down") "ann" =
      ("", some "Internal Server Error: provider down") :=
  (federal_search_status_error (respondingTransport 500 "provider down") "ann"
    "http://thirdparty:8082/federalcriminalsearch" "ann"
    ⟨500, ⟨"provider down", none⟩⟩ rfl rfl rfl rfl).1 (by decide)

theorem fromValidation_traceToConsent (s0 : BackgroundCheckState V F S M) :
    fromValidation (traceToConsent s0) = [] := rfl

theorem fromValidation_declined (s0 s1 : BackgroundCheckState V F S M) :
    fromValidation (traceToConsent s0 ++
      [(Event.published BackgroundCheckStatus.Declined, s1)]) = [] := rfl

theorem fromValidation_traceToValidation (s0 s1 : BackgroundCheckState V F S M)
    (c : AcceptSubmission) (rest : List (Event × BackgroundCheckState V F S M)) :
    fromValidation (traceToValidation s0 s1 c ++ rest) =
      (Event.started (Child.ValidateSSN (ssnInputOf c)), s1) :: (Event.suspended, s1) :: rest :=
  rfl

theorem snapshotsOf_subset (t : List (Event × BackgroundCheckState V F S M))
    (st : BackgroundCheckState V F S M) (h : st ∈ snapshotsOf t) :
    ∃ p ∈ t, p.2 = st := by
  simp only [snapshotsOf, List.mem_filterMap] at h
  obtain ⟨p, hp, hst⟩ := h
  refine ⟨p, hp, ?_⟩
  rcases p with ⟨e, s⟩
  cases e <;> simp at hst
  exact hst

theorem startsInvestigative_traceToValidation {s0 s1 : BackgroundCheckState V F S M}
    {c : AcceptSubmission} {p : Event × BackgroundCheckState V F S M}
    (h : p ∈ traceToValidation s0 s1 c) : startsInvestigative p.1 = false := by
  simp only [traceToValidation, traceToConsent, List.mem_append, List.mem_cons,
    List.mem_singleton, List.not_mem_nil, or_false] at h
  rcases h with (rfl | rfl | rfl | rfl) | rfl | rfl | rfl <;> rfl

theorem startsInvestigative_select {ready : Nat → Nat} {st : BackgroundCheckState V F S M}
    {l : List (Event × BackgroundCheckState V F S M)} (hl : SelectTrace ready st l)
    {p : Event × BackgroundCheckState V F S M} (h : p ∈ l) :
    startsInvestigative p.1 = false := by
  rcases p with ⟨e, s⟩
  cases e with
  | started c =>
    have hmem : c ∈ startedOf l := by
      simp only [startedOf, List.mem_filterMap]
      exact ⟨_, h, rfl⟩
    rw [hl.2.2.1] at hmem
    simp at hmem
  | _ => rfl

/-- C8: in a run in which the consent child workflow was started and returned an accepted
submission `c`, every trace entry from the start of the validation child workflow onwards
(validation in flight, investigative checks started, every call of `Select`, the final
publication) carries a state whose candidate details are those of `c`; so no snapshot
served there has zero candidate details when those of `c` are not zero. Every
investigative child workflow is started in a state whose validation slot holds the result
returned by the validation child workflow. -/
theorem details_before_checks [Inhabited V] [Inhabited F] [Inhabited S] [Inhabited M]
    (host : Host V F S M) (z : Option BackgroundCheckStatus)
    (input : BackgroundCheckWorkflowInput) (c : AcceptSubmission)
    (hs : Child.Accept ∈ startedOf (BackgroundCheck host z input).trace)
    (ha : host.Accept = Except.ok c) (hacc : c.Accepted = true) :
    (∀ p ∈ fromValidation (BackgroundCheck host z input).trace,
      p.2.CandidateDetails = c.CandidateDetails) ∧
    (c.CandidateDetails ≠ ⟨"", "", ""⟩ →
      ∀ st ∈ snapshotsOf (fromValidation (BackgroundCheck host z input).trace),
        st.CandidateDetails ≠ ⟨"", "", ""⟩) ∧
    (∀ p ∈ (BackgroundCheck host z input).trace, startsInvestigative p.1 = true →
      p.2.CandidateDetails = c.CandidateDetails ∧
      ∃ v, host.ValidateSSN (ssnInputOf c) = Except.ok v ∧ p.2.Validate = v) := by
  have key : (∀ p ∈ fromValidation (BackgroundCheck host z input).trace,
      p.2.CandidateDetails = c.CandidateDetails) ∧
      (∀ p ∈ (BackgroundCheck host z input).trace, startsInvestigative p.1 = true →
        p.2.CandidateDetails = c.CandidateDetails ∧
        ∃ v, host.ValidateSSN (ssnInputOf c) = Except.ok v ∧ p.2.Validate = v) := by
    rcases run_path host z input with ⟨e, hq, hr⟩ | ⟨e, hq, hp, hr⟩ | ⟨e, hq, hp, ha1, hr⟩ |
      ⟨c1, e, hq, hp, ha1, hacc1, hd, hr⟩ | ⟨c1, hq, hp, ha1, hacc1, hd, hr⟩ |
      ⟨c1, e, hq, hp, ha1, hacc1, hd, hr⟩ | ⟨c1, e, hq, hp, ha1, hacc1, hd, hv, hr⟩ |
      ⟨c1, v, hq, hp, ha1, hacc1, hd, hv, hvalid, hr⟩ |
      ⟨c1, v, hq, hp, ha1, hacc1, hd, hv, hvalid, ht, hr⟩ |
      ⟨c1, v, e, l, hq, hp, ha1, hacc1, hd, hv, hvalid, ht, hl, hc, hr⟩ |
      ⟨c1, v, l, hq, hp, ha1, hacc1, hd, hv, hvalid, ht, hl, hc, hr⟩
    · simp [hr, startedOf] at hs
    · simp [hr, startedOf] at hs
    · simp [ha] at ha1
    · obtain rfl : c = c1 := by simpa [ha] using ha1
      simp [hacc] at hacc1
    · obtain rfl : c = c1 := by simpa [ha] using ha1
      simp [hacc] at hacc1
    · obtain rfl : c = c1 := by simpa [ha] using ha1
      refine ⟨?_, ?_⟩
      · intro p hm
        simp only [hr, fromValidation_traceToConsent, List.not_mem_nil] at hm
      · intro p hm hi
        rw [hr] at hm
        simp only [traceToConsent, List.mem_cons, List.mem_singleton, List.not_mem_nil,
          or_false] at hm
        rcases hm with rfl | rfl | rfl | rfl <;>
          simp [startsInvestigative, Child.investigative] at hi
    all_goals obtain rfl : c = c1 := by simpa [ha] using ha1
    · refine ⟨?_, ?_⟩
      · intro p hm
        rw [hr] at hm
        have h := fromValidation_traceToValidation
          (initialState z input : BackgroundCheckState V F S M)
          (stateAfterConsent z input c) c []
        rw [List.append_nil] at h
        simp only [h, List.mem_cons, List.mem_singleton, List.not_mem_nil, or_false] at hm
        rcases hm with rfl | rfl <;> rfl
      · intro p hm hi
        rw [hr] at hm
        rw [startsInvestigative_traceToValidation hm] at hi
        exact absurd hi (by decide)
    · refine ⟨?_, ?_⟩
      · intro p hm
        rw [hr] at hm
        have h := fromValidation_traceToValidation
          (initialState z input : BackgroundCheckState V F S M)
          (stateAfterConsent z input c) c []
        rw [List.append_nil] at h
        simp only [h, List.mem_cons, List.mem_singleton, List.not_mem_nil, or_false] at hm
        rcases hm with rfl | rfl <;> rfl
      · intro p hm hi
        rw [hr] at hm
        rw [startsInvestigative_traceToValidation hm] at hi
        exact absurd hi (by decide)
    · refine ⟨?_, ?_⟩
      · intro p hm
        rw [hr] at hm
        have h := fromValidation_traceToValidation
          (initialState z input : BackgroundCheckState V F S M)
          (stateAfterConsent z input c) c []
        rw [List.append_nil] at h
        simp only [h, List.mem_cons, List.mem_singleton, List.not_mem_nil, or_false] at hm
        rcases hm with rfl | rfl <;> rfl
      · intro p hm hi
        rw [hr] at hm
        rw [startsInvestigative_traceToValidation hm] at hi
        exact absurd hi (by decide)
    · refine ⟨?_, ?_⟩
      · intro p hm
        simp only [hr, List.append_assoc, fromValidation_traceToValidation, List.mem_cons,
          List.mem_append] at hm
        rcases hm with rfl | rfl | hm | hm
        · rfl
        · rfl
        · rw [mem_traceOfStarts hm]; rfl
        · rw [← (hl.1 p hm).2.2.1]; rfl
      · intro p hm hi
        simp only [hr, List.mem_append] at hm
        rcases hm with (hm | hm) | hm
        · rw [startsInvestigative_traceToValidation hm] at hi
          exact absurd hi (by decide)
        · rw [mem_traceOfStarts hm]
          exact ⟨rfl, v, hv, rfl⟩
        · rw [startsInvestigative_select hl hm] at hi
          exact absurd hi (by decide)
    · refine ⟨?_, ?_⟩
      · intro p hm
        simp only [hr, List.append_assoc, fromValidation_traceToValidation, List.mem_cons,
          List.mem_append, List.mem_singleton, List.not_mem_nil, or_false] at hm
        rcases hm with rfl | rfl | hm | hm | rfl
        · rfl
        · rfl
        · rw [mem_traceOfStarts hm]; rfl
        · rw [← (hl.1 p hm).2.2.1]; rfl
        · rfl
      · intro p hm hi
        simp only [hr, List.mem_append, List.mem_singleton] at hm
        rcases hm with ((hm | hm) | hm) | rfl
        · rw [startsInvestigative_traceToValidation hm] at hi
          exact absurd hi (by decide)
        · rw [mem_traceOfStarts hm]
          exact ⟨rfl, v, hv, rfl⟩
        · rw [startsInvestigative_select hl hm] at hi
          exact absurd hi (by decide)
        · simp [startsInvestigative] at hi
  refine ⟨key.1, ?_, key.2⟩
  intro hne st hst
  obtain ⟨p, hp, rfl⟩ := snapshotsOf_subset _ st hst
  rw [key.1 p hp]
  exact hne

/-- C8 (witness): on the all-success host with tier `full`, whose submission carries
`sampleDetails`, every snapshot from the start of validation onwards has non-zero
candidate details. -/
theorem details_before_checks_witness :
    (snapshotsOf (fromValidation (BackgroundCheck sampleHost none fullInput).trace)).all
      (fun st => decide (st.CandidateDetails ≠ ⟨"", "", ""⟩)) = true :=
  List.all_eq_true.mpr fun st hst => decide_eq_true
    ((details_before_checks sampleHost none fullInput ⟨true, sampleDetails⟩ (by decide) rfl
      rfl).2.1 (by decide) st hst)

theorem snapshotsOf_traceToValidation (s0 s1 : BackgroundCheckState V F S M)
    (c : AcceptSubmission) : snapshotsOf (traceToValidation s0 s1 c) = [s0, s1] := rfl

theorem snapshotsOf_traceOfStarts (s2 : BackgroundCheckState V F S M) (c : AcceptSubmission) :
    snapshotsOf (traceOfStarts s2 c) = [] := rfl

theorem full_path_facts [Inhabited V] [Inhabited F] [Inhabited S] [Inhabited M]
    (host : Host V F S M) (z : Option BackgroundCheckStatus)
    (input : BackgroundCheckWorkflowInput)
    (h : investigativeStarted (BackgroundCheck host z input) ≠ []) :
    host.SetQueryHandler = none ∧
    host.UpsertSearchAttributes BackgroundCheckStatus.PendingAccept = none ∧
    host.UpsertSearchAttributes BackgroundCheckStatus.Running = none ∧
    input.Package = "full" ∧
    ∃ c v, host.Accept = Except.ok c ∧ c.Accepted = true ∧
      host.ValidateSSN (ssnInputOf c) = Except.ok v ∧ v.Valid = true := by
  rcases run_path host z input with ⟨e, hq, hr⟩ | ⟨e, hq, hp, hr⟩ | ⟨e, hq, hp, ha, hr⟩ |
    ⟨c, e, hq, hp, ha, hacc, hd, hr⟩ | ⟨c, hq, hp, ha, hacc, hd, hr⟩ |
    ⟨c, e, hq, hp, ha, hacc, hd, hr⟩ | ⟨c, e, hq, hp, ha, hacc, hd, hv, hr⟩ |
    ⟨c, v, hq, hp, ha, hacc, hd, hv, hvalid, hr⟩ |
    ⟨c, v, hq, hp, ha, hacc, hd, hv, hvalid, ht, hr⟩ |
    ⟨c, v, e, l, hq, hp, ha, hacc, hd, hv, hvalid, ht, hl, hc, hr⟩ |
    ⟨c, v, l, hq, hp, ha, hacc, hd, hv, hvalid, ht, hl, hc, hr⟩
  · simp [hr, investigativeStarted, startedOf] at h
  · simp [hr, investigativeStarted, startedOf] at h
  · simp [hr, investigativeStarted, startedOf_traceToConsent, Child.investigative] at h
  · simp [hr, investigativeStarted, startedOf_traceToConsent, Child.investigative] at h
  · simp [hr, investigativeStarted, startedOf_append, startedOf_traceToConsent,
      startedOf_single, Child.investigative] at h
  · simp [hr, investigativeStarted, startedOf_traceToConsent, Child.investigative] at h
  · simp [hr, investigativeStarted, startedOf_traceToValidation, Child.investigative] at h
  · simp [hr, investigativeStarted, startedOf_traceToValidation, Child.investigative] at h
  · simp [hr, investigativeStarted, startedOf_traceToValidation, Child.investigative] at h
  · exact ⟨hq, hp, hd, ht, c, v, ha, hacc, hv, hvalid⟩
  · exact ⟨hq, hp, hd, ht, c, v, ha, hacc, hv, hvalid⟩

theorem full_path_consumed [Inhabited V] [Inhabited F] [Inhabited S] [Inhabited M]
    (host : Host V F S M) (z : Option BackgroundCheckStatus)
    (input : BackgroundCheckWorkflowInput) (c : AcceptSubmission)
    (v : ValidateSSNWorkflowResult V)
    (hq : host.SetQueryHandler = none)
    (hp : host.UpsertSearchAttributes BackgroundCheckStatus.PendingAccept = none)
    (hd : host.UpsertSearchAttributes BackgroundCheckStatus.Running = none)
    (ht : input.Package = "full")
    (ha : host.Accept = Except.ok c) (hacc : c.Accepted = true)
    (hv : host.ValidateSSN (ssnInputOf c) = Except.ok v) (hvalid : v.Valid = true) :
    consumedOf (BackgroundCheck host z input).trace =
      completionOrder (host.ready 0 % 3) (host.ready 1 % 2) := by
  rcases run_path host z input with ⟨e, hq1, hr⟩ | ⟨e, hq1, hp1, hr⟩ |
    ⟨e, hq1, hp1, ha1, hr⟩ |
    ⟨c1, e, hq1, hp1, ha1, hacc1, hd1, hr⟩ | ⟨c1, hq1, hp1, ha1, hacc1, hd1, hr⟩ |
    ⟨c1, e, hq1, hp1, ha1, hacc1, hd1, hr⟩ | ⟨c1, e, hq1, hp1, ha1, hacc1, hd1, hv1, hr⟩ |
    ⟨c1, v1, hq1, hp1, ha1, hacc1, hd1, hv1, hvalid1, hr⟩ |
    ⟨c1, v1, hq1, hp1, ha1, hacc1, hd1, hv1, hvalid1, ht1, hr⟩ |
    ⟨c1, v1, e, l, hq1, hp1, ha1, hacc1, hd1, hv1, hvalid1, ht1, hl, hc, hr⟩ |
    ⟨c1, v1, l, hq1, hp1, ha1, hacc1, hd1, hv1, hvalid1, ht1, hl, hc, hr⟩
  · simp [hq] at hq1
  · simp [hp] at hp1
  · simp [ha] at ha1
  · obtain rfl : c = c1 := by simpa [ha] using ha1
    simp [hacc] at hacc1
  · obtain rfl : c = c1 := by simpa [ha] using ha1
    simp [hacc] at hacc1
  · simp [hd] at hd1
  · obtain rfl : c = c1 := by simpa [ha] using ha1
    simp [hv] at hv1
  · obtain rfl : c = c1 := by simpa [ha] using ha1
    obtain rfl : v = v1 := by simpa [hv] using hv1
    simp [hvalid] at hvalid1
  · exact absurd ht ht1
  · simp [hr, consumedOf_append, consumedOf_traceToValidation, consumedOf_traceOfStarts,
      hl.2.2.2.1]
  · simp [hr, consumedOf_append, consumedOf_traceToValidation, consumedOf_traceOfStarts,
      consumedOf_single, hl.2.2.2.1]

theorem completionOrder_onto (k1 k2 k3 : Check)
    (h : [k1, k2, k3].Perm [Check.federalCriminalSearch, Check.stateCriminalSearch,
      Check.motorVehicleIncidentSearch]) :
    ∃ a b, completionOrder (a % 3) (b % 2) = [k1, k2, k3] := by
  cases k1 <;> cases k2 <;> cases k3 <;>
    first
    | exact absurd h (by decide)
    | exact ⟨0, 0, rfl⟩
    | exact ⟨0, 1, rfl⟩
    | exact ⟨1, 0, rfl⟩
    | exact ⟨1, 1, rfl⟩
    | exact ⟨2, 0, rfl⟩
    | exact ⟨2, 1, rfl⟩

/-- C9: `Completed` is published only as the last step, after the three investigative
child workflows were started and each of the three futures was consumed exactly once by
one of three calls of `Select` (five suspensions in all: consent, validation, three
selects); the run always returns; its final state and return value are the same for
every completion order; on the full path the futures are consumed in the order chosen by
the host, and each of the six orders is chosen by some host. -/
theorem selector_barrier [Inhabited V] [Inhabited F] [Inhabited S] [Inhabited M]
    (host : Host V F S M) (z : Option BackgroundCheckStatus)
    (input : BackgroundCheckWorkflowInput) :
    (BackgroundCheckStatus.Completed ∈ publishedOf (BackgroundCheck host z input).trace →
      ∃ before st, (BackgroundCheck host z input).trace =
          before ++ [(Event.published BackgroundCheckStatus.Completed, st)] ∧
        BackgroundCheckStatus.Completed ∉ publishedOf before ∧
        (consumedOf before).Perm [Check.federalCriminalSearch, Check.stateCriminalSearch,
          Check.motorVehicleIncidentSearch] ∧
        (consumedOf before).length = ((startedOf before).filter Child.investigative).length ∧
        (snapshotsOf before).length = 5) ∧
    (∃ err, (BackgroundCheck host z input).result = Outcome.returned err) ∧
    (∀ r : Nat → Nat,
      (BackgroundCheck { host with ready := r } z input).status =
        (BackgroundCheck host z input).status ∧
      (BackgroundCheck { host with ready := r } z input).result =
        (BackgroundCheck host z input).result) ∧
    (investigativeStarted (BackgroundCheck host z input) ≠ [] →
      consumedOf (BackgroundCheck host z input).trace =
        completionOrder (host.ready 0 % 3) (host.ready 1 % 2) ∧
      ∀ k1 k2 k3, [k1, k2, k3].Perm [Check.federalCriminalSearch, Check.stateCriminalSearch,
          Check.motorVehicleIncidentSearch] →
        ∃ r : Nat → Nat,
          consumedOf (BackgroundCheck { host with ready := r } z input).trace =
            [k1, k2, k3]) := by
  refine ⟨?_, ?_, fun r => ?_, ?_⟩
  · rcases run_path host z input with ⟨e, hq, hr⟩ | ⟨e, hq, hp, hr⟩ | ⟨e, hq, hp, ha, hr⟩ |
      ⟨c, e, hq, hp, ha, hacc, hd, hr⟩ | ⟨c, hq, hp, ha, hacc, hd, hr⟩ |
      ⟨c, e, hq, hp, ha, hacc, hd, hr⟩ | ⟨c, e, hq, hp, ha, hacc, hd, hv, hr⟩ |
      ⟨c, v, hq, hp, ha, hacc, hd, hv, hvalid, hr⟩ |
      ⟨c, v, hq, hp, ha, hacc, hd, hv, hvalid, ht, hr⟩ |
      ⟨c, v, e, l, hq, hp, ha, hacc, hd, hv, hvalid, ht, hl, hc, hr⟩ |
      ⟨c, v, l, hq, hp, ha, hacc, hd, hv, hvalid, ht, hl, hc, hr⟩
    · simp [hr, publishedOf]
    · simp [hr, publishedOf]
    · simp [hr, publishedOf_traceToConsent]
    · simp [hr, publishedOf_traceToConsent]
    · simp [hr, publishedOf_append, publishedOf_single, publishedOf_traceToConsent]
    · simp [hr, publishedOf_traceToConsent]
    · simp [hr, publishedOf_traceToValidation]
    · simp [hr, publishedOf_traceToValidation]
    · simp [hr, publishedOf_traceToValidation]
    · simp [hr, publishedOf_append, publishedOf_traceToValidation, publishedOf_traceOfStarts,
        hl.2.1]
    · intro _
      refine ⟨_, _, by rw [hr], ?_, ?_, ?_, ?_⟩
      · simp [publishedOf_append, publishedOf_traceToValidation, publishedOf_traceOfStarts,
          hl.2.1]
      · simp only [consumedOf_append, consumedOf_traceToValidation, consumedOf_traceOfStarts,
          hl.2.2.2.1, List.nil_append]
        exact completionOrder_perm _ _
      · simp only [consumedOf_append, consumedOf_traceToValidation, consumedOf_traceOfStarts,
          hl.2.2.2.1, List.nil_append, startedOf_append, startedOf_traceToValidation,
          startedOf_traceOfStarts, hl.2.2.1, List.append_nil,
          (completionOrder_perm _ _).length_eq]
        simp [Child.investigative]
      · simp [snapshotsOf_append, snapshotsOf_traceToValidation, snapshotsOf_traceOfStarts,
          hl.2.2.2.2]
  · rcases run_path host z input with ⟨e, hq, hr⟩ | ⟨e, hq, hp, hr⟩ | ⟨e, hq, hp, ha, hr⟩ |
      ⟨c, e, hq, hp, ha, hacc, hd, hr⟩ | ⟨c, hq, hp, ha, hacc, hd, hr⟩ |
      ⟨c, e, hq, hp, ha, hacc, hd, hr⟩ | ⟨c, e, hq, hp, ha, hacc, hd, hv, hr⟩ |
      ⟨c, v, hq, hp, ha, hacc, hd, hv, hvalid, hr⟩ |
      ⟨c, v, hq, hp, ha, hacc, hd, hv, hvalid, ht, hr⟩ |
      ⟨c, v, e, l, hq, hp, ha, hacc, hd, hv, hvalid, ht, hl, hc, hr⟩ |
      ⟨c, v, l, hq, hp, ha, hacc, hd, hv, hvalid, ht, hl, hc, hr⟩ <;>
    exact ⟨_, by rw [hr]⟩
  · have h := run_congr host ⟨host.SetQueryHandler, host.UpsertSearchAttributes, host.Accept,
      host.ValidateSSN, host.FederalCriminalSearch, host.StateCriminalSearch,
      host.MotorVehicleIncidentSearch, r⟩ z input rfl rfl rfl rfl
    exact ⟨h.2 rfl rfl rfl, h.1⟩
  · intro hne
    obtain ⟨hq, hp, hd, ht, c, v, ha, hacc, hv, hvalid⟩ := full_path_facts host z input hne
    refine ⟨full_path_consumed host z input c v hq hp hd ht ha hacc hv hvalid, ?_⟩
    intro k1 k2 k3 hperm
    obtain ⟨a, b, hab⟩ := completionOrder_onto k1 k2 k3 hperm
    refine ⟨fun i => if i = 0 then a else b, ?_⟩
    rw [← hab]
    exact full_path_consumed ⟨host.SetQueryHandler, host.UpsertSearchAttributes, host.Accept,
      host.ValidateSSN, host.FederalCriminalSearch, host.StateCriminalSearch,
      host.MotorVehicleIncidentSearch, fun i => if i = 0 then a else b⟩ z input c v hq hp hd
      ht ha hacc hv hvalid

/-- C9 (witness): on the all-success host with tier `full` the run publishes `Completed`
last, after the three futures were consumed, here in registration order. -/
theorem selector_barrier_witness :
    (∃ before st, (BackgroundCheck sampleHost none fullInput).trace =
        before ++ [(Event.published BackgroundCheckStatus.Completed, st)] ∧
      BackgroundCheckStatus.Completed ∉ publishedOf before ∧
      (consumedOf before).Perm [Check.federalCriminalSearch, Check.stateCriminalSearch,
        Check.motorVehicleIncidentSearch] ∧
      (consumedOf before).length = ((startedOf before).filter Child.investigative).length ∧
      (snapshotsOf before).length = 5) ∧
    consumedOf (BackgroundCheck sampleHost none fullInput).trace =
      completionOrder (sampleHost.ready 0 % 3) (sampleHost.ready 1 % 2) :=
  ⟨(selector_barrier sampleHost none fullInput).1 (by decide),
    ((selector_barrier sampleHost none fullInput).2.2.2 (by decide)).1⟩

/-- C10: an error of `updateStatus` is returned at once and nothing is done after it.
When the publication of `PendingAccept` fails no child workflow is started; when the
publication of `Running` fails, after an accepted consent, only the consent was started;
when the publication of `Declined` fails, after a declined consent, the run returns the
error although only the publication was left to do; when the publication of `Completed`
fails, after the investigative checks were started, the run returns the error although
the three checks were consumed. In each case the failed status is not published. -/
theorem status_publication_fatal [Inhabited V] [Inhabited F] [Inhabited S] [Inhabited M]
    (host : Host V F S M) (z : Option BackgroundCheckStatus)
    (input : BackgroundCheckWorkflowInput) :
    (∀ e, host.SetQueryHandler = none →
      host.UpsertSearchAttributes BackgroundCheckStatus.PendingAccept = some e →
      (BackgroundCheck host z input).result = Outcome.returned (some e) ∧
      startedOf (BackgroundCheck host z input).trace = [] ∧
      publishedOf (BackgroundCheck host z input).trace = []) ∧
    (∀ c e, Child.Accept ∈ startedOf (BackgroundCheck host z input).trace →
      host.Accept = Except.ok c → c.Accepted = true →
      host.UpsertSearchAttributes BackgroundCheckStatus.Running = some e →
      (BackgroundCheck host z input).result = Outcome.returned (some e) ∧
      startedOf (BackgroundCheck host z input).trace = [Child.Accept] ∧
      publishedOf (BackgroundCheck host z input).trace =
        [BackgroundCheckStatus.PendingAccept]) ∧
    (∀ c e, Child.Accept ∈ startedOf (BackgroundCheck host z input).trace →
      host.Accept = Except.ok c → c.Accepted = false →
      host.UpsertSearchAttributes BackgroundCheckStatus.Declined = some e →
      (BackgroundCheck host z input).result = Outcome.returned (some e) ∧
      startedOf (BackgroundCheck host z input).trace = [Child.Accept] ∧
      publishedOf (BackgroundCheck host z input).trace =
        [BackgroundCheckStatus.PendingAccept]) ∧
    (∀ e, investigativeStarted (BackgroundCheck host z input) ≠ [] →
      host.UpsertSearchAttributes BackgroundCheckStatus.Completed = some e →
      (BackgroundCheck host z input).result = Outcome.returned (some e) ∧
      (consumedOf (BackgroundCheck host z input).trace).Perm
        [Check.federalCriminalSearch, Check.stateCriminalSearch,
          Check.motorVehicleIncidentSearch] ∧
      publishedOf (BackgroundCheck host z input).trace =
        [BackgroundCheckStatus.PendingAccept, BackgroundCheckStatus.Running]) := by
  refine ⟨?_, ?_, ?_, ?_⟩
  · intro e1 hq1 hp1
    rcases run_path host z input with ⟨e, hq, hr⟩ | ⟨e, hq, hp, hr⟩ | ⟨e, hq, hp, ha, hr⟩ |
      ⟨c, e, hq, hp, ha, hacc, hd, hr⟩ | ⟨c, hq, hp, ha, hacc, hd, hr⟩ |
      ⟨c, e, hq, hp, ha, hacc, hd, hr⟩ | ⟨c, e, hq, hp, ha, hacc, hd, hv, hr⟩ |
      ⟨c, v, hq, hp, ha, hacc, hd, hv, hvalid, hr⟩ |
      ⟨c, v, hq, hp, ha, hacc, hd, hv, hvalid, ht, hr⟩ |
      ⟨c, v, e, l, hq, hp, ha, hacc, hd, hv, hvalid, ht, hl, hc, hr⟩ |
      ⟨c, v, l, hq, hp, ha, hacc, hd, hv, hvalid, ht, hl, hc, hr⟩
    · simp [hq1] at hq
    · obtain rfl : e1 = e := by simpa [hp1] using hp
      simp [hr, startedOf, publishedOf]
    all_goals simp [hp1] at hp
  · intro c0 e1 hs ha0 hacc0 hd0
    rcases run_path host z input with ⟨e, hq, hr⟩ | ⟨e, hq, hp, hr⟩ | ⟨e, hq, hp, ha, hr⟩ |
      ⟨c, e, hq, hp, ha, hacc, hd, hr⟩ | ⟨c, hq, hp, ha, hacc, hd, hr⟩ |
      ⟨c, e, hq, hp, ha, hacc, hd, hr⟩ | ⟨c, e, hq, hp, ha, hacc, hd, hv, hr⟩ |
      ⟨c, v, hq, hp, ha, hacc, hd, hv, hvalid, hr⟩ |
      ⟨c, v, hq, hp, ha, hacc, hd, hv, hvalid, ht, hr⟩ |
      ⟨c, v, e, l, hq, hp, ha, hacc, hd, hv, hvalid, ht, hl, hc, hr⟩ |
      ⟨c, v, l, hq, hp, ha, hacc, hd, hv, hvalid, ht, hl, hc, hr⟩
    · simp [hr, startedOf] at hs
    · simp [hr, startedOf] at hs
    · simp [ha0] at ha
    · obtain rfl : c0 = c := by simpa [ha0] using ha
      simp [hacc0] at hacc
    · obtain rfl : c0 = c := by simpa [ha0] using ha
      simp [hacc0] at hacc
    · obtain rfl : e1 = e := by simpa [hd0] using hd
      simp [hr, startedOf_traceToConsent, publishedOf_traceToConsent]
    all_goals simp [hd0] at hd
  · intro c0 e1 hs ha0 hacc0 hd0
    rcases run_path host z input with ⟨e, hq, hr⟩ | ⟨e, hq, hp, hr⟩ | ⟨e, hq, hp, ha, hr⟩ |
      ⟨c, e, hq, hp, ha, hacc, hd, hr⟩ | ⟨c, hq, hp, ha, hacc, hd, hr⟩ |
      ⟨c, e, hq, hp, ha, hacc, hd, hr⟩ | ⟨c, e, hq, hp, ha, hacc, hd, hv, hr⟩ |
      ⟨c, v, hq, hp, ha, hacc, hd, hv, hvalid, hr⟩ |
      ⟨c, v, hq, hp, ha, hacc, hd, hv, hvalid, ht, hr⟩ |
      ⟨c, v, e, l, hq, hp, ha, hacc, hd, hv, hvalid, ht, hl, hc, hr⟩ |
      ⟨c, v, l, hq, hp, ha, hacc, hd, hv, hvalid, ht, hl, hc, hr⟩
    · simp [hr, startedOf] at hs
    · simp [hr, startedOf] at hs
    · simp [ha0] at ha
    · obtain rfl : e1 = e := by simpa [hd0] using hd
      simp [hr, startedOf_traceToConsent, publishedOf_traceToConsent]
    · simp [hd0] at hd
    all_goals
      obtain rfl : c0 = c := by simpa [ha0] using ha
      simp [hacc0] at hacc
  · intro e1 hne hc0
    rcases run_path host z input with ⟨e, hq, hr⟩ | ⟨e, hq, hp, hr⟩ | ⟨e, hq, hp, ha, hr⟩ |
      ⟨c, e, hq, hp, ha, hacc, hd, hr⟩ | ⟨c, hq, hp, ha, hacc, hd, hr⟩ |
      ⟨c, e, hq, hp, ha, hacc, hd, hr⟩ | ⟨c, e, hq, hp, ha, hacc, hd, hv, hr⟩ |
      ⟨c, v, hq, hp, ha, hacc, hd, hv, hvalid, hr⟩ |
      ⟨c, v, hq, hp, ha, hacc, hd, hv, hvalid, ht, hr⟩ |
      ⟨c, v, e, l, hq, hp, ha, hacc, hd, hv, hvalid, ht, hl, hc, hr⟩ |
      ⟨c, v, l, hq, hp, ha, hacc, hd, hv, hvalid, ht, hl, hc, hr⟩
    · simp [hr, investigativeStarted, startedOf] at hne
    · simp [hr, investigativeStarted, startedOf] at hne
    · simp [hr, investigativeStarted, startedOf_traceToConsent, Child.investigative] at hne
    · simp [hr, investigativeStarted, startedOf_traceToConsent, Child.investigative] at hne
    · simp [hr, investigativeStarted, startedOf_append, startedOf_traceToConsent,
        startedOf_single, Child.investigative] at hne
    · simp [hr, investigativeStarted, startedOf_traceToConsent, Child.investigative] at hne
    · simp [hr, investigativeStarted, startedOf_traceToValidation, Child.investigative] at hne
    · simp [hr, investigativeStarted, startedOf_traceToValidation, Child.investigative] at hne
    · simp [hr, investigativeStarted, startedOf_traceToValidation, Child.investigative] at hne
    · obtain rfl : e1 = e := by simpa [hc0] using hc
      refine ⟨by rw [hr], ?_, ?_⟩
      · simp only [hr, consumedOf_append, consumedOf_traceToValidation,
          consumedOf_traceOfStarts, hl.2.2.2.1, List.nil_append]
        exact completionOrder_perm _ _
      · simp [hr, publishedOf_append, publishedOf_traceToValidation,
          publishedOf_traceOfStarts, hl.2.1]
    · simp [hc0] at hc

/-- C10 (witness): the four publication failures on the sample hosts. -/
theorem status_publication_fatal_witness :
    ((BackgroundCheck (publishFailingHost BackgroundCheckStatus.PendingAccept) none
        fullInput).result = Outcome.returned (some "search attributes unavailable") ∧
      startedOf (BackgroundCheck (publishFailingHost BackgroundCheckStatus.PendingAccept) none
        fullInput).trace = [] ∧
      publishedOf (BackgroundCheck (publishFailingHost BackgroundCheckStatus.PendingAccept)
        none fullInput).trace = []) ∧
    ((BackgroundCheck (publishFailingHost BackgroundCheckStatus.Running) none
        fullInput).result = Outcome.returned (some "search attributes unavailable") ∧
      startedOf (BackgroundCheck (publishFailingHost BackgroundCheckStatus.Running) none
        fullInput).trace = [Child.Accept] ∧
      publishedOf (BackgroundCheck (publishFailingHost BackgroundCheckStatus.Running)
        none fullInput).trace = [BackgroundCheckStatus.PendingAccept]) ∧
    ((BackgroundCheck (publishFailingHost BackgroundCheckStatus.Completed) none
        fullInput).result = Outcome.returned (some "search attributes unavailable") ∧
      (consumedOf (BackgroundCheck (publishFailingHost BackgroundCheckStatus.Completed) none
        fullInput).trace).Perm [Check.federalCriminalSearch, Check.stateCriminalSearch,
          Check.motorVehicleIncidentSearch] ∧
      publishedOf (BackgroundCheck (publishFailingHost BackgroundCheckStatus.Completed)
        none fullInput).trace =
        [BackgroundCheckStatus.PendingAccept, BackgroundCheckStatus.Running]) :=
  ⟨(status_publication_fatal (publishFailingHost BackgroundCheckStatus.PendingAccept) none
      fullInput).1 _ rfl rfl,
    (status_publication_fatal (publishFailingHost BackgroundCheckStatus.Running) none
      fullInput).2.1 ⟨true, sampleDetails⟩ _ (by decide) rfl rfl rfl,
    (status_publication_fatal (publishFailingHost BackgroundCheckStatus.Completed) none
      fullInput).2.2.2 _ (by decide) rfl⟩

end Lemmas

end BackgroundChecks
